import Mathlib

/-!
# MobileUI, Android (Qt6) bridge: a shallow embedding of `MobileUI_android_qt6.cpp`

Conventions of the embedding.

* A C++/Java 32-bit `int` that is used as a flag word is represented by its two's-complement
  bit pattern, a natural number below `2 ^ 32`; `&`, `|` and `~` act on that pattern.
* A C++ `double` is represented by the rational number it denotes; every arithmetic operation
  is the exact operation followed by `Binary64.rnd`, IEEE-754 round-to-nearest-even to
  binary64, each operation rounded on its own (no fused multiply-add).
* `QNativeInterface::QAndroidApplication::runOnAndroidMainThread` runs the posted closure;
  the embedding runs the closures one after the other, each to completion, the closure a
  colour setter posts for the theme right after the colour part.
-/

namespace Binary64

/-- Exponent of a non-zero rational `x`: the integer `e` with `2 ^ e ≤ |x| < 2 ^ (e + 1)`. -/
def binade (x : ℚ) : ℤ := Int.log 2 |x|

/-- Spacing of the binary64 numbers around `x`: 53 significant bits, and the subnormal
spacing `2 ^ (-1074)` below `2 ^ (-1022)`. -/
def ulp (x : ℚ) : ℚ := (2 : ℚ) ^ max (binade x - 52) (-1074)

/-- Nearest integer, a tie going to the even neighbour. -/
def roundHalfEven (q : ℚ) : ℤ :=
  let f := ⌊q⌋
  let r := q - f
  if r < 1 / 2 then f else if 1 / 2 < r then f + 1 else if f % 2 = 0 then f else f + 1

/-- IEEE-754 binary64 rounding to nearest, ties to even, of an exact result
(overflow to infinity is outside the embedding). -/
def rnd (x : ℚ) : ℚ := if x = 0 then 0 else roundHalfEven (x / ulp x) * ulp x

/-- The C++ `double` product. -/
def fmul (x y : ℚ) : ℚ := rnd (x * y)

/-- The C++ `double` sum. -/
def fadd (x y : ℚ) : ℚ := rnd (x + y)

/-- The C++ `double` difference. -/
def fsub (x y : ℚ) : ℚ := rnd (x - y)

/-- The C++ `double` quotient; `none` when the divisor is zero (the quotient is then an
infinity or a NaN, which the embedding does not represent). -/
def fdiv (x y : ℚ) : Option ℚ := if y = 0 then none else some (rnd (x / y))

/-- The C++ conversion `double → int`: truncation toward zero; `none` where the truncated
value does not fit a 32-bit `int` (undefined behaviour in C++). -/
def toInt (x : ℚ) : Option ℤ :=
  let t : ℤ := if 0 ≤ x then ⌊x⌋ else ⌈x⌉
  if -2147483648 ≤ t ∧ t ≤ 2147483647 then some t else none

end Binary64

/-- The components of a `QColor` that the bridge reads: `red()`, `green()`, `blue()` and
`alpha()`, each in `0 .. 255`. -/
structure QColor where
  red : Nat
  green : Nat
  blue : Nat
  alpha : Nat
deriving DecidableEq

/-- The value of `QColor::rgba()`: `0xAARRGGBB`. -/
def QColor.rgba (color : QColor) : Nat :=
  (color.alpha <<< 24) ||| (color.red <<< 16) ||| (color.green <<< 8) ||| color.blue

/-- The literal `0.299` as a binary64 number. -/
def lit_0_299 : ℚ := Binary64.rnd (299 / 1000)

/-- The literal `0.587` as a binary64 number. -/
def lit_0_587 : ℚ := Binary64.rnd (587 / 1000)

/-- The literal `0.114` as a binary64 number. -/
def lit_0_114 : ℚ := Binary64.rnd (114 / 1000)

/-- The literal `0.2` as a binary64 number. -/
def lit_0_2 : ℚ := Binary64.rnd (2 / 10)

/-- The local `darkness` of `isQColorLight`:
`1.0 - (0.299 * red + 0.587 * green + 0.114 * blue) / 255.0`, in binary64. -/
def darkness (color : QColor) : ℚ :=
  Binary64.fsub 1
    (Binary64.rnd
      (Binary64.fadd
        (Binary64.fadd (Binary64.fmul lit_0_299 color.red) (Binary64.fmul lit_0_587 color.green))
        (Binary64.fmul lit_0_114 color.blue) / 255))

/-- `static bool isQColorLight(QColor color)`: `return (darkness < 0.2);`. -/
def isQColorLight (color : QColor) : Bool := decide (darkness color < lit_0_2)

/-! ## Constants of the Android SDK, as `#define`d at the top of the source file -/

/-- `WindowManager.LayoutParams.FLAG_KEEP_SCREEN_ON`. -/
def FLAG_KEEP_SCREEN_ON : Nat := 0x00000080

/-- `WindowManager.LayoutParams.FLAG_TRANSLUCENT_STATUS`. -/
def FLAG_TRANSLUCENT_STATUS : Nat := 0x04000000

/-- `WindowManager.LayoutParams.FLAG_TRANSLUCENT_NAVIGATION`. -/
def FLAG_TRANSLUCENT_NAVIGATION : Nat := 0x08000000

/-- `WindowManager.LayoutParams.FLAG_DRAWS_SYSTEM_BAR_BACKGROUNDS`. -/
def FLAG_DRAWS_SYSTEM_BAR_BACKGROUNDS : Nat := 0x80000000

/-- `View.SYSTEM_UI_FLAG_LIGHT_STATUS_BAR`. -/
def SYSTEM_UI_FLAG_LIGHT_STATUS_BAR : Nat := 0x00002000

/-- `View.SYSTEM_UI_FLAG_LIGHT_NAVIGATION_BAR`. -/
def SYSTEM_UI_FLAG_LIGHT_NAVIGATION_BAR : Nat := 0x00000010

/-- `Configuration.UI_MODE_NIGHT_UNDEFINED`. -/
def UI_MODE_NIGHT_UNDEFINED : Nat := 0x00000000

/-- `Configuration.UI_MODE_NIGHT_NO`. -/
def UI_MODE_NIGHT_NO : Nat := 0x00000010

/-- `Configuration.UI_MODE_NIGHT_YES`. -/
def UI_MODE_NIGHT_YES : Nat := 0x00000020

/-- `Configuration.UI_MODE_NIGHT_MASK`. -/
def UI_MODE_NIGHT_MASK : Nat := 0x00000030

/-- `WindowInsetsController.APPEARANCE_LIGHT_STATUS_BARS`. -/
def APPEARANCE_LIGHT_STATUS_BARS : Nat := 0x00000008

/-- `WindowInsetsController.APPEARANCE_LIGHT_NAVIGATION_BARS`. -/
def APPEARANCE_LIGHT_NAVIGATION_BARS : Nat := 0x00000010

/-- The C++ `~x` on the bit pattern of a 32-bit `int`. -/
def complement32 (x : Nat) : Nat := 0xFFFFFFFF ^^^ x

namespace MobileUI

/-- Modelled from the spec: `enum MobileUI::Theme` is declared in `MobileUI.h`, which is not
among the sources; the spec gives the enumeration as Light, Dark, `Light` being the
enumerator of value 0 and `Dark` the enumerator of value 1. -/
inductive Theme where
  | Light
  | Dark
deriving DecidableEq

/-- The conversion `static_cast<MobileUI::Theme>(b)` of a `bool`: `false` is 0, that is
`Light`, and `true` is 1, that is `Dark`. -/
def Theme.ofBool : Bool → Theme
  | false => Theme.Light
  | true => Theme.Dark

/-- Modelled from the spec: the enumerators of `MobileUI::ScreenOrientation` that
`lockScreenOrientation` compares with are declared in `MobileUI.h`, which is not among the
sources; their integer values are kept abstract. -/
structure ScreenOrientation where
  Portrait : Int
  Portrait_upsidedown : Int
  Portrait_sensor : Int
  Landscape_left : Int
  Landscape_right : Int
  Landscape_sensor : Int
deriving DecidableEq

/-- The six enumerators are pairwise distinct, as the enumerators of the C++ enumeration are. -/
def ScreenOrientation.Distinct (E : ScreenOrientation) : Prop :=
  [E.Portrait, E.Portrait_upsidedown, E.Portrait_sensor,
    E.Landscape_left, E.Landscape_right, E.Landscape_sensor].Nodup

instance (E : ScreenOrientation) : Decidable E.Distinct := by
  unfold ScreenOrientation.Distinct
  infer_instance

end MobileUI

open MobileUI

/-- What is connected to the signal `QScreen::orientationChanged`. Both theme setters connect
a closure with the same body, `updatePreferredStatusBarStyle();`, here `refreshLambda`. -/
inductive Slot where
  | refreshLambda
deriving DecidableEq

/-- The state-changing calls made through JNI, with their arguments. -/
inductive JniCall where
  | addFlags (flags : Nat)
  | clearFlags (flags : Nat)
  | setStatusBarColor (color : Nat)
  | setNavigationBarColor (color : Nat)
  | setSystemUiVisibility (visibility : Nat)
  | setSystemBarsAppearance (appearance : Nat) (mask : Nat)
  | setRequestedOrientation (value : Int)
deriving DecidableEq

/-- The four safe insets of an `android.view.DisplayCutout`, in physical pixels. -/
structure DisplayCutout where
  safeInsetTop : Int
  safeInsetLeft : Int
  safeInsetRight : Int
  safeInsetBottom : Int
deriving DecidableEq

/-- Everything the bridge reads or writes: the Android objects reached through JNI (the
activity's window, its decor view and its insets controller are taken to exist), the Qt
application, and the static members of `MobileUIPrivate`. -/
structure World where
  /-- `QNativeInterface::QAndroidApplication::sdkVersion()`. -/
  sdkVersion : Nat
  /-- `activity.isValid()`, where the source tests it. -/
  activityValid : Bool
  /-- The flags of the window attributes. -/
  windowFlags : Nat
  /-- The colour set by `Window.setStatusBarColor`. -/
  statusBarColor : Nat
  /-- The colour set by `Window.setNavigationBarColor`. -/
  navigationBarColor : Nat
  /-- The decor view's `getSystemUiVisibility()`. -/
  systemUiVisibility : Nat
  /-- The insets controller's `getSystemBarsAppearance()`. -/
  systemBarsAppearance : Nat
  /-- The field `uiMode` of the resources' `Configuration`, as a bit pattern. -/
  uiMode : Nat
  /-- The result of `getRootWindowInsets().getDisplayCutout()`; `none` is the null object. -/
  displayCutout : Option DisplayCutout
  /-- `qApp->devicePixelRatio()`, a `qreal`. -/
  devicePixelRatio : ℚ
  /-- Whether `qApp->primaryScreen()` is non-null. -/
  primaryScreen : Bool
  /-- The closures connected to `QScreen::orientationChanged`, in connection order. -/
  orientationChanged : List Slot
  /-- `MobileUIPrivate::statusbarTheme`. -/
  statusbarTheme : Theme
  /-- `MobileUIPrivate::navbarTheme`. -/
  navbarTheme : Theme
  /-- `MobileUIPrivate::areRefreshSlotsConnected`. -/
  areRefreshSlotsConnected : Bool
  /-- The JNI calls made so far, oldest first. -/
  jni : List JniCall
deriving DecidableEq

namespace Android

/-- `Window.setFlags(flags, mask)`: `attrs.flags = (attrs.flags & ~mask) | (flags & mask)`. -/
def setFlags (flags mask : Nat) (w : World) : World :=
  { w with windowFlags := (w.windowFlags &&& complement32 mask) ||| (flags &&& mask) }

/-- `Window.addFlags(flags)`, which the platform defines as `setFlags(flags, flags)`. -/
def addFlags (flags : Nat) (w : World) : World :=
  setFlags flags flags { w with jni := w.jni ++ [JniCall.addFlags flags] }

/-- `Window.clearFlags(flags)`, which the platform defines as `setFlags(0, flags)`. -/
def clearFlags (flags : Nat) (w : World) : World :=
  setFlags 0 flags { w with jni := w.jni ++ [JniCall.clearFlags flags] }

/-- `Window.setStatusBarColor(color)`. -/
def setStatusBarColor (color : Nat) (w : World) : World :=
  { w with statusBarColor := color, jni := w.jni ++ [JniCall.setStatusBarColor color] }

/-- `Window.setNavigationBarColor(color)`. -/
def setNavigationBarColor (color : Nat) (w : World) : World :=
  { w with navigationBarColor := color, jni := w.jni ++ [JniCall.setNavigationBarColor color] }

/-- `View.setSystemUiVisibility(visibility)`. -/
def setSystemUiVisibility (visibility : Nat) (w : World) : World :=
  { w with
    systemUiVisibility := visibility
    jni := w.jni ++ [JniCall.setSystemUiVisibility visibility] }

/-- `WindowInsetsController.setSystemBarsAppearance(appearance, mask)`: the bits of `mask`
are taken from `appearance`, the others are kept. -/
def setSystemBarsAppearance (appearance mask : Nat) (w : World) : World :=
  { w with
    systemBarsAppearance := (w.systemBarsAppearance &&& complement32 mask) ||| (appearance &&& mask)
    jni := w.jni ++ [JniCall.setSystemBarsAppearance appearance mask] }

/-- `Activity.setRequestedOrientation(value)`. -/
def setRequestedOrientation (value : Int) (w : World) : World :=
  { w with jni := w.jni ++ [JniCall.setRequestedOrientation value] }

end Android

/-- `static QJniObject getDisplayCutout()`: the cutout of the root window insets from API
level 28 on, the invalid `QJniObject()` below. -/
def getDisplayCutout (w : World) : Option DisplayCutout :=
  if w.sdkVersion ≥ 28 then w.displayCutout else none

namespace MobileUIPrivate

/-- `int MobileUIPrivate::getDeviceTheme_sys()`. -/
def getDeviceTheme_sys (w : World) : Theme :=
  let uiMode := w.uiMode &&& UI_MODE_NIGHT_MASK
  if uiMode = UI_MODE_NIGHT_YES then Theme.Dark else Theme.Light

/-- The closure `MobileUIPrivate::setTheme_statusbar(theme)` posts to the Android thread. -/
def setTheme_statusbar (theme : Theme) (w : World) : World :=
  if w.sdkVersion < 30 then
    let visibility := w.systemUiVisibility
    let visibility :=
      if theme = Theme.Light then visibility ||| SYSTEM_UI_FLAG_LIGHT_STATUS_BAR
      else visibility &&& complement32 SYSTEM_UI_FLAG_LIGHT_STATUS_BAR
    Android.setSystemUiVisibility visibility w
  else if w.sdkVersion ≥ 30 then
    let visibility := w.systemBarsAppearance
    let visibility :=
      if theme = Theme.Light then visibility ||| APPEARANCE_LIGHT_STATUS_BARS
      else visibility &&& complement32 APPEARANCE_LIGHT_STATUS_BARS
    let w := Android.setSystemBarsAppearance visibility APPEARANCE_LIGHT_STATUS_BARS w
    if !w.areRefreshSlotsConnected then
      let w :=
        if w.primaryScreen then
          { w with orientationChanged := w.orientationChanged ++ [Slot.refreshLambda] }
        else w
      { w with areRefreshSlotsConnected := true }
    else w
  else w

/-- The closure `MobileUIPrivate::setColor_statusbar(color)` posts to the Android thread. -/
def setColor_statusbar (color : QColor) (w : World) : World :=
  let w := Android.addFlags FLAG_DRAWS_SYSTEM_BAR_BACKGROUNDS w
  let w := Android.clearFlags FLAG_TRANSLUCENT_STATUS w
  let w := Android.setStatusBarColor color.rgba w
  let w := { w with statusbarTheme := Theme.ofBool (!isQColorLight color) }
  setTheme_statusbar w.statusbarTheme w

/-- The closure `MobileUIPrivate::setTheme_navbar(theme)` posts to the Android thread. -/
def setTheme_navbar (theme : Theme) (w : World) : World :=
  if w.sdkVersion < 30 then
    let visibility := w.systemUiVisibility
    let visibility :=
      if theme = Theme.Light then visibility ||| SYSTEM_UI_FLAG_LIGHT_NAVIGATION_BAR
      else visibility &&& complement32 SYSTEM_UI_FLAG_LIGHT_NAVIGATION_BAR
    Android.setSystemUiVisibility visibility w
  else if w.sdkVersion ≥ 30 then
    let visibility := w.systemBarsAppearance
    let visibility :=
      if theme = Theme.Light then visibility ||| APPEARANCE_LIGHT_NAVIGATION_BARS
      else visibility &&& complement32 APPEARANCE_LIGHT_NAVIGATION_BARS
    let w := Android.setSystemBarsAppearance visibility APPEARANCE_LIGHT_NAVIGATION_BARS w
    if !w.areRefreshSlotsConnected then
      let w :=
        if w.primaryScreen then
          { w with orientationChanged := w.orientationChanged ++ [Slot.refreshLambda] }
        else w
      { w with areRefreshSlotsConnected := true }
    else w
  else w

/-- The closure `MobileUIPrivate::setColor_navbar(color)` posts to the Android thread. -/
def setColor_navbar (color : QColor) (w : World) : World :=
  let w := Android.addFlags FLAG_DRAWS_SYSTEM_BAR_BACKGROUNDS w
  let w := Android.clearFlags FLAG_TRANSLUCENT_NAVIGATION w
  let w := Android.setNavigationBarColor color.rgba w
  let w := { w with navbarTheme := Theme.ofBool (!isQColorLight color) }
  setTheme_navbar w.navbarTheme w

/-- The body shared by the four getters: `inset / qApp->devicePixelRatio()`, an `int`
divided by a `qreal`, converted to the `int` that is returned. -/
def scaleInset (inset : Int) (w : World) : Option Int :=
  (Binary64.fdiv inset w.devicePixelRatio).bind Binary64.toInt

/-- `int MobileUIPrivate::getSafeAreaTop()`; `none` where the C++ result is undefined. -/
def getSafeAreaTop (w : World) : Option Int :=
  match getDisplayCutout w with
  | some cutout => scaleInset cutout.safeInsetTop w
  | none => some 0

/-- `int MobileUIPrivate::getSafeAreaLeft()`; `none` where the C++ result is undefined. -/
def getSafeAreaLeft (w : World) : Option Int :=
  match getDisplayCutout w with
  | some cutout => scaleInset cutout.safeInsetLeft w
  | none => some 0

/-- `int MobileUIPrivate::getSafeAreaRight()`; `none` where the C++ result is undefined. -/
def getSafeAreaRight (w : World) : Option Int :=
  match getDisplayCutout w with
  | some cutout => scaleInset cutout.safeInsetRight w
  | none => some 0

/-- `int MobileUIPrivate::getSafeAreaBottom()`; `none` where the C++ result is undefined. -/
def getSafeAreaBottom (w : World) : Option Int :=
  match getDisplayCutout w with
  | some cutout => scaleInset cutout.safeInsetBottom w
  | none => some 0

/-- The closure `MobileUIPrivate::setScreenKeepOn(on)` posts to the Android thread; `keepOn`
is the argument `on`. -/
def setScreenKeepOn (keepOn : Bool) (w : World) : World :=
  if keepOn then Android.addFlags FLAG_KEEP_SCREEN_ON w
  else Android.clearFlags FLAG_KEEP_SCREEN_ON w

/-- The local `value` of `lockScreenOrientation`: the chain of comparisons, which starts
from -1, `SCREEN_ORIENTATION_UNSPECIFIED`. -/
def orientationValue (E : ScreenOrientation) (orientation : Int) : Int :=
  if orientation = E.Portrait then 1
  else if orientation = E.Portrait_upsidedown then 9
  else if orientation = E.Portrait_sensor then 7
  else if orientation = E.Landscape_left then 0
  else if orientation = E.Landscape_right then 8
  else if orientation = E.Landscape_sensor then 6
  else -1

/-- `void MobileUIPrivate::lockScreenOrientation(int orientation)`. -/
def lockScreenOrientation (E : ScreenOrientation) (orientation : Int) (w : World) : World :=
  let value := orientationValue E orientation
  if w.activityValid then Android.setRequestedOrientation value w else w

end MobileUIPrivate

namespace MobileUI

/-- Modelled from the spec: `MobileUI::setStatusbarTheme` is defined in `MobileUI.cpp`, which
is not among the sources. By the spec the cached theme reflects the most recently requested
style and the request is applied to the platform: the requested theme is stored in
`MobileUIPrivate::statusbarTheme` and handed to `MobileUIPrivate::setTheme_statusbar`. -/
def setStatusbarTheme (theme : Theme) (w : World) : World :=
  MobileUIPrivate.setTheme_statusbar theme { w with statusbarTheme := theme }

end MobileUI

/-- `void updatePreferredStatusBarStyle()`. -/
def updatePreferredStatusBarStyle (w : World) : World :=
  MobileUI.setStatusbarTheme w.statusbarTheme w

/-- Running one connected closure. -/
def Slot.run : Slot → World → World
  | Slot.refreshLambda => updatePreferredStatusBarStyle

/-- The signal `QScreen::orientationChanged` is emitted: every closure connected at that
moment runs, in connection order. -/
def emitOrientationChanged (w : World) : World :=
  w.orientationChanged.foldl (fun v slot => slot.run v) w

/-- A call of one of the four bar setters of `MobileUIPrivate`. -/
inductive Call where
  | setColor_statusbar (color : QColor)
  | setTheme_statusbar (theme : Theme)
  | setColor_navbar (color : QColor)
  | setTheme_navbar (theme : Theme)
deriving DecidableEq

/-- Running one call. -/
def Call.run : Call → World → World
  | Call.setColor_statusbar color => MobileUIPrivate.setColor_statusbar color
  | Call.setTheme_statusbar theme => MobileUIPrivate.setTheme_statusbar theme
  | Call.setColor_navbar color => MobileUIPrivate.setColor_navbar color
  | Call.setTheme_navbar theme => MobileUIPrivate.setTheme_navbar theme

/-- Running a sequence of calls, first to last. -/
def runCalls (calls : List Call) (w : World) : World :=
  calls.foldl (fun v call => call.run v) w

/-- Whether a call addresses the status bar. -/
def Call.isStatusbar : Call → Bool
  | Call.setColor_statusbar _ => true
  | Call.setTheme_statusbar _ => true
  | _ => false

/-- The theme a call stores in `MobileUIPrivate::statusbarTheme`, if it stores one. -/
def Call.statusbarColorTheme : Call → Option Theme
  | Call.setColor_statusbar color => some (Theme.ofBool (!isQColorLight color))
  | _ => none

/-- The theme a call stores in `MobileUIPrivate::navbarTheme`, if it stores one. -/
def Call.navbarColorTheme : Call → Option Theme
  | Call.setColor_navbar color => some (Theme.ofBool (!isQColorLight color))
  | _ => none

/-- The theme the last `setColor_statusbar` of a sequence derives from its colour. -/
def lastStatusbarColorTheme : List Call → Option Theme
  | [] => none
  | call :: rest =>
    match lastStatusbarColorTheme rest with
    | some theme => some theme
    | none => call.statusbarColorTheme

/-- The theme the last `setColor_navbar` of a sequence derives from its colour. -/
def lastNavbarColorTheme : List Call → Option Theme
  | [] => none
  | call :: rest =>
    match lastNavbarColorTheme rest with
    | some theme => some theme
    | none => call.navbarColorTheme

/-- A world at API level 33 with a primary screen, nothing set yet. -/
def World.sample : World where
  sdkVersion := 33
  activityValid := true
  windowFlags := 0
  statusBarColor := 0
  navigationBarColor := 0
  systemUiVisibility := 0
  systemBarsAppearance := 0
  uiMode := 0x11
  displayCutout := some ⟨84, 0, 0, 0⟩
  devicePixelRatio := 21 / 8
  primaryScreen := true
  orientationChanged := []
  statusbarTheme := Theme.Light
  navbarTheme := Theme.Light
  areRefreshSlotsConnected := false
  jni := []

open MobileUI MobileUIPrivate

/-! ## Binary64 rounding -/

theorem Binary64.roundHalfEven_sub_le (q : ℚ) : |(roundHalfEven q : ℚ) - q| ≤ 1 / 2 := by
  have h1 : (⌊q⌋ : ℚ) ≤ q := Int.floor_le q
  have h2 : q < ⌊q⌋ + 1 := Int.lt_floor_add_one q
  unfold roundHalfEven
  simp only
  split_ifs with a b c
  · rw [abs_le]; constructor <;> linarith
  · rw [abs_le]; push_cast; constructor <;> linarith
  · rw [abs_le]; constructor <;> linarith
  · rw [abs_le]; push_cast; constructor <;> linarith

theorem Binary64.roundHalfEven_eq_of_abs_lt (q : ℚ) (m : ℤ) (h : |q - m| < 1 / 2) :
    roundHalfEven q = m := by
  have h0 := roundHalfEven_sub_le q
  rw [abs_lt] at h
  rw [abs_le] at h0
  have h3 : ((roundHalfEven q : ℤ) : ℚ) - m < 1 := by linarith [h.1, h.2, h0.1, h0.2]
  have h4 : (-1 : ℚ) < ((roundHalfEven q : ℤ) : ℚ) - m := by linarith [h.1, h.2, h0.1, h0.2]
  have h5 : roundHalfEven q - m < 1 := by exact_mod_cast h3
  have h6 : -1 < roundHalfEven q - m := by exact_mod_cast h4
  omega

theorem Binary64.roundHalfEven_eq_of_tie (q : ℚ) (m : ℤ) (hm : m % 2 = 0) (h : |q - m| = 1 / 2) :
    roundHalfEven q = m := by
  rcases abs_eq (by norm_num : (0 : ℚ) ≤ 1 / 2) |>.1 h with h1 | h1
  · have hq : q = m + 1 / 2 := by linarith
    have hf : ⌊q⌋ = m := by
      rw [Int.floor_eq_iff, hq]
      constructor <;> linarith
    unfold roundHalfEven
    simp only [hf]
    rw [if_neg (by rw [hq]; norm_num), if_neg (by rw [hq]; norm_num), if_pos hm]
  · have hq : q = m - 1 / 2 := by linarith
    have hf : ⌊q⌋ = m - 1 := by
      rw [Int.floor_eq_iff, hq]
      push_cast
      constructor <;> linarith
    unfold roundHalfEven
    simp only [hf]
    rw [if_neg (by rw [hq]; push_cast; norm_num), if_neg (by rw [hq]; push_cast; norm_num),
      if_neg (by omega)]
    omega

theorem Binary64.roundHalfEven_le_of_le (q : ℚ) (k : ℤ) (h : q ≤ k) : roundHalfEven q ≤ k := by
  have hf : ⌊q⌋ ≤ k := by
    have : ((⌊q⌋ : ℤ) : ℚ) ≤ (k : ℚ) := le_trans (Int.floor_le q) h
    exact_mod_cast this
  rcases eq_or_lt_of_le hf with he | hl
  · have hq : q = k := le_antisymm h (by rw [← he]; exact Int.floor_le q)
    have : roundHalfEven q = k := by
      apply roundHalfEven_eq_of_abs_lt
      rw [hq]; norm_num
    omega
  · unfold roundHalfEven
    simp only
    split_ifs <;> omega

theorem Binary64.le_roundHalfEven_of_le (q : ℚ) (k : ℤ) (h : (k : ℚ) ≤ q) : k ≤ roundHalfEven q := by
  have hf : k ≤ ⌊q⌋ := Int.le_floor.2 h
  unfold roundHalfEven
  simp only
  split_ifs <;> omega

theorem Binary64.ulp_pos (x : ℚ) : 0 < ulp x := by
  unfold ulp
  positivity

theorem Binary64.binade_eq (x : ℚ) (e : ℤ) (h1 : (2 : ℚ) ^ e ≤ |x|) (h2 : |x| < (2 : ℚ) ^ (e + 1)) :
    binade x = e := by
  have hpos : 0 < |x| := lt_of_lt_of_le (by positivity) h1
  have a : e ≤ binade x := by
    have := (Int.zpow_le_iff_le_log (b := 2) (by norm_num) (x := e) hpos).1
      (by simpa using h1)
    simpa [binade] using this
  have b : binade x < e + 1 := by
    have := (Int.lt_zpow_iff_log_lt (b := 2) (by norm_num) (x := e + 1) hpos).1
      (by simpa using h2)
    simpa [binade] using this
  omega

theorem Binary64.binade_lt (x : ℚ) (e : ℤ) (hx : x ≠ 0) (h2 : |x| < (2 : ℚ) ^ e) : binade x < e := by
  have hpos : 0 < |x| := abs_pos.2 hx
  have := (Int.lt_zpow_iff_log_lt (b := 2) (by norm_num) (x := e) hpos).1 (by simpa using h2)
  simpa [binade] using this

theorem Binary64.rnd_sub_le_ulp (x : ℚ) : |rnd x - x| ≤ ulp x / 2 := by
  unfold rnd
  split_ifs with h
  · subst h
    have := ulp_pos 0
    simp only [sub_self, abs_zero]
    linarith
  · have hu := ulp_pos x
    have key := roundHalfEven_sub_le (x / ulp x)
    have e : (roundHalfEven (x / ulp x) : ℚ) * ulp x - x
        = ((roundHalfEven (x / ulp x) : ℚ) - x / ulp x) * ulp x := by
      field_simp
    rw [e, abs_mul, abs_of_pos hu]
    nlinarith

/-- Below 256 the rounding error of one operation is at most `2 ^ (-46)`. -/
theorem Binary64.rnd_sub_le (x : ℚ) (h : |x| < 256) : |rnd x - x| ≤ 1 / 70368744177664 := by
  by_cases hx : x = 0
  · subst hx
    simp [rnd]
  · have hb : binade x < 8 := binade_lt x 8 hx (by norm_num; exact h)
    have hu : ulp x ≤ (2 : ℚ) ^ (-45 : ℤ) := by
      unfold ulp
      apply zpow_le_zpow_right₀ (by norm_num)
      omega
    have := rnd_sub_le_ulp x
    have e : (2 : ℚ) ^ (-45 : ℤ) = 1 / 35184372088832 := by norm_num [zpow_neg]
    rw [e] at hu
    linarith

/-- Certificate for one rounding: exponent `e` and rounded significand `m`. -/
theorem Binary64.rnd_eq_of (x : ℚ) (e m : ℤ) (he : -1022 ≤ e) (h1 : (2 : ℚ) ^ e ≤ |x|)
    (h2 : |x| < (2 : ℚ) ^ (e + 1)) (hm : |x / (2 : ℚ) ^ (e - 52) - m| < 1 / 2) :
    rnd x = m * (2 : ℚ) ^ (e - 52) := by
  have hx : x ≠ 0 := by
    intro h
    rw [h, abs_zero] at h1
    exact absurd h1 (not_le.2 (by positivity))
  have hb := binade_eq x e h1 h2
  have hu : ulp x = (2 : ℚ) ^ (e - 52) := by
    unfold ulp
    rw [hb, max_eq_left (by omega)]
  unfold rnd
  rw [if_neg hx, hu, roundHalfEven_eq_of_abs_lt _ m hm]

/-- Certificate for one rounding of a positive value, the significand not at a tie. -/
theorem Binary64.rnd_eq_of_pos (x u : ℚ) (e m : ℤ) (he : -1022 ≤ e) (hu : (2 : ℚ) ^ (e - 52) = u)
    (h1 : (2 : ℚ) ^ e ≤ x) (h2 : x < (2 : ℚ) ^ (e + 1))
    (hl : (m : ℚ) - 1 / 2 < x / u) (hr : x / u < m + 1 / 2) : rnd x = m * u := by
  have hx : 0 < x := lt_of_lt_of_le (by positivity) h1
  subst hu
  apply rnd_eq_of x e m he
  · rwa [abs_of_pos hx]
  · rwa [abs_of_pos hx]
  · rw [abs_lt]
    constructor <;> linarith

/-- Certificate for one rounding of a positive value at a tie: the even significand wins. -/
theorem Binary64.rnd_eq_of_pos_tie (x u : ℚ) (e m : ℤ) (he : -1022 ≤ e) (hu : (2 : ℚ) ^ (e - 52) = u)
    (h1 : (2 : ℚ) ^ e ≤ x) (h2 : x < (2 : ℚ) ^ (e + 1))
    (hm : m % 2 = 0) (ht : |x / u - m| = 1 / 2) : rnd x = m * u := by
  have hx : 0 < x := lt_of_lt_of_le (by positivity) h1
  have hx0 : x ≠ 0 := hx.ne'
  have hb := binade_eq x e (by rwa [abs_of_pos hx]) (by rwa [abs_of_pos hx])
  have hu2 : ulp x = u := by
    unfold ulp
    rw [hb, max_eq_left (by omega), hu]
  unfold rnd
  rw [if_neg hx0, hu2, roundHalfEven_eq_of_tie _ m hm ht]

/-- Below `2 ^ 53` the spacing is `1 / 2 ^ n` for a natural `n`: integers are on the grid. -/
theorem Binary64.ulp_eq_inv_pow (q : ℚ) (hq : q ≠ 0) (h : |q| < 2 ^ 53) :
    ∃ n : ℕ, ulp q = 1 / 2 ^ n := by
  have hb : binade q < 53 := binade_lt q 53 hq (by exact_mod_cast h)
  have hz : max (binade q - 52) (-1074) ≤ 0 := by omega
  refine ⟨(-(max (binade q - 52) (-1074))).toNat, ?_⟩
  unfold ulp
  have e : max (binade q - 52) (-1074) = -(((-(max (binade q - 52) (-1074))).toNat : ℕ) : ℤ) := by
    rw [Int.toNat_of_nonneg (by omega)]
    ring
  conv_lhs => rw [e]
  rw [zpow_neg, zpow_natCast, one_div]

/-- Rounding does not cross an integer: from below. -/
theorem Binary64.rnd_le_intCast (q : ℚ) (k : ℤ) (h0 : 0 < q) (h1 : q ≤ k) (h2 : (k : ℚ) < 2 ^ 53) :
    rnd q ≤ k := by
  obtain ⟨n, hn⟩ := ulp_eq_inv_pow q h0.ne' (by rw [abs_of_pos h0]; linarith)
  unfold rnd
  rw [if_neg h0.ne', hn]
  have hp : (0 : ℚ) < 2 ^ n := by positivity
  have hle : roundHalfEven (q / (1 / 2 ^ n)) ≤ k * 2 ^ n := by
    apply roundHalfEven_le_of_le
    push_cast
    rw [div_div_eq_mul_div, div_one]
    exact mul_le_mul_of_nonneg_right h1 hp.le
  have hle2 : (roundHalfEven (q / (1 / 2 ^ n)) : ℚ) ≤ k * 2 ^ n := by exact_mod_cast hle
  rw [mul_one_div, div_le_iff₀ hp]
  exact hle2

/-- Rounding does not cross an integer: from above. -/
theorem Binary64.intCast_le_rnd (q : ℚ) (k : ℤ) (h0 : 0 < q) (h1 : (k : ℚ) ≤ q) (h2 : q < 2 ^ 53) :
    (k : ℚ) ≤ rnd q := by
  obtain ⟨n, hn⟩ := ulp_eq_inv_pow q h0.ne' (by rw [abs_of_pos h0]; exact h2)
  unfold rnd
  rw [if_neg h0.ne', hn]
  have hp : (0 : ℚ) < 2 ^ n := by positivity
  have hle : k * 2 ^ n ≤ roundHalfEven (q / (1 / 2 ^ n)) := by
    apply le_roundHalfEven_of_le
    push_cast
    rw [div_div_eq_mul_div, div_one]
    exact mul_le_mul_of_nonneg_right h1 hp.le
  have hle2 : (k : ℚ) * 2 ^ n ≤ (roundHalfEven (q / (1 / 2 ^ n)) : ℚ) := by exact_mod_cast hle
  rw [mul_one_div, le_div_iff₀ hp]
  exact hle2

/-! ## C1: `isQColorLight` -/

theorem lit_0_299_eq : lit_0_299 = 5386305154335113 / 18014398509481984 := by
  unfold lit_0_299
  rw [Binary64.rnd_eq_of_pos _ (1 / 18014398509481984) (-2) 5386305154335113 (by norm_num)
    (by norm_num [zpow_neg]) (by norm_num [zpow_neg]) (by norm_num [zpow_neg])
    (by norm_num) (by norm_num)]
  norm_num

theorem lit_0_587_eq : lit_0_587 = 2643612981266481 / 4503599627370496 := by
  unfold lit_0_587
  rw [Binary64.rnd_eq_of_pos _ (1 / 9007199254740992) (-1) 5287225962532962 (by norm_num)
    (by norm_num [zpow_neg]) (by norm_num [zpow_neg]) (by norm_num [zpow_neg])
    (by norm_num) (by norm_num)]
  norm_num

theorem lit_0_114_eq : lit_0_114 = 8214565720323785 / 72057594037927936 := by
  unfold lit_0_114
  rw [Binary64.rnd_eq_of_pos _ (1 / 72057594037927936) (-4) 8214565720323785 (by norm_num)
    (by norm_num [zpow_neg]) (by norm_num [zpow_neg]) (by norm_num [zpow_neg])
    (by norm_num) (by norm_num)]
  norm_num

theorem lit_0_2_eq : lit_0_2 = 3602879701896397 / 18014398509481984 := by
  unfold lit_0_2
  rw [Binary64.rnd_eq_of_pos _ (1 / 36028797018963968) (-3) 7205759403792794 (by norm_num)
    (by norm_num [zpow_neg]) (by norm_num [zpow_neg]) (by norm_num [zpow_neg])
    (by norm_num) (by norm_num)]
  norm_num

/-- The binary64 `darkness` is within `10 ^ (-12)` of the exact value
`1 - (0.299 r + 0.587 g + 0.114 b) / 255`. -/
theorem darkness_sub_le (color : QColor) (hr : color.red ≤ 255) (hg : color.green ≤ 255)
    (hb : color.blue ≤ 255) :
    |darkness color
      - (1 - (299 * (color.red : ℚ) + 587 * color.green + 114 * color.blue) / 255000)|
      ≤ 1 / 1000000000000 := by
  have r0 : (0 : ℚ) ≤ color.red := Nat.cast_nonneg _
  have g0 : (0 : ℚ) ≤ color.green := Nat.cast_nonneg _
  have b0 : (0 : ℚ) ≤ color.blue := Nat.cast_nonneg _
  have r1 : (color.red : ℚ) ≤ 255 := by exact_mod_cast hr
  have g1 : (color.green : ℚ) ≤ 255 := by exact_mod_cast hg
  have b1 : (color.blue : ℚ) ≤ 255 := by exact_mod_cast hb
  unfold darkness Binary64.fsub Binary64.fadd Binary64.fmul
  rw [lit_0_299_eq, lit_0_587_eq, lit_0_114_eq]
  generalize (color.red : ℚ) = r at *
  generalize (color.green : ℚ) = g at *
  generalize (color.blue : ℚ) = b at *
  obtain ⟨l1, u1⟩ := abs_le.1 (Binary64.rnd_sub_le (5386305154335113 / 18014398509481984 * r)
    (abs_lt.2 ⟨by linarith, by linarith⟩))
  obtain ⟨l2, u2⟩ := abs_le.1 (Binary64.rnd_sub_le (2643612981266481 / 4503599627370496 * g)
    (abs_lt.2 ⟨by linarith, by linarith⟩))
  obtain ⟨l3, u3⟩ := abs_le.1 (Binary64.rnd_sub_le (8214565720323785 / 72057594037927936 * b)
    (abs_lt.2 ⟨by linarith, by linarith⟩))
  generalize Binary64.rnd (5386305154335113 / 18014398509481984 * r) = x1 at *
  generalize Binary64.rnd (2643612981266481 / 4503599627370496 * g) = x2 at *
  generalize Binary64.rnd (8214565720323785 / 72057594037927936 * b) = x3 at *
  obtain ⟨l4, u4⟩ := abs_le.1 (Binary64.rnd_sub_le (x1 + x2)
    (abs_lt.2 ⟨by linarith, by linarith⟩))
  generalize Binary64.rnd (x1 + x2) = y1 at *
  obtain ⟨l5, u5⟩ := abs_le.1 (Binary64.rnd_sub_le (y1 + x3)
    (abs_lt.2 ⟨by linarith, by linarith⟩))
  generalize Binary64.rnd (y1 + x3) = y2 at *
  obtain ⟨l6, u6⟩ := abs_le.1 (Binary64.rnd_sub_le (y2 / 255)
    (abs_lt.2 ⟨by linarith, by linarith⟩))
  generalize Binary64.rnd (y2 / 255) = t at *
  obtain ⟨l7, u7⟩ := abs_le.1 (Binary64.rnd_sub_le (1 - t)
    (abs_lt.2 ⟨by linarith, by linarith⟩))
  generalize Binary64.rnd (1 - t) = d at *
  rw [abs_le]
  constructor <;> linarith

/-- Strictly above the threshold `299 r + 587 g + 114 b = 204000` a colour is light. -/
theorem isQColorLight_of_gt (color : QColor) (hr : color.red ≤ 255) (hg : color.green ≤ 255)
    (hb : color.blue ≤ 255)
    (h : 204000 < 299 * color.red + 587 * color.green + 114 * color.blue) :
    isQColorLight color = true := by
  have key := abs_le.1 (darkness_sub_le color hr hg hb)
  have h1 : (204001 : ℚ) ≤ 299 * (color.red : ℚ) + 587 * color.green + 114 * color.blue := by
    exact_mod_cast h
  unfold isQColorLight
  rw [decide_eq_true_eq, lit_0_2_eq]
  linarith [key.2]

/-- Strictly below the threshold a colour is not light. -/
theorem isQColorLight_of_lt (color : QColor) (hr : color.red ≤ 255) (hg : color.green ≤ 255)
    (hb : color.blue ≤ 255)
    (h : 299 * color.red + 587 * color.green + 114 * color.blue < 204000) :
    isQColorLight color = false := by
  have key := abs_le.1 (darkness_sub_le color hr hg hb)
  have h1 : 299 * (color.red : ℚ) + 587 * color.green + 114 * color.blue ≤ 203999 := by
    have : 299 * color.red + 587 * color.green + 114 * color.blue ≤ 203999 := by omega
    exact_mod_cast this
  unfold isQColorLight
  rw [decide_eq_false_iff_not, lit_0_2_eq, not_lt]
  linarith [key.1]

/-- The binary64 `darkness` of the grey (204, 204, 204), step by step. -/
theorem darkness_grey (a : Nat) :
    darkness ⟨204, 204, 204, a⟩ = 1801439850948199 / 9007199254740992 := by
  have s1 : Binary64.rnd (5386305154335113 / 18014398509481984 * 204)
      = 4292211919860793 / 70368744177664 := by
    rw [Binary64.rnd_eq_of_pos _ (1 / 140737488355328) 5 8584423839721586 (by norm_num)
      (by norm_num [zpow_neg]) (by norm_num) (by norm_num) (by norm_num) (by norm_num)]
    norm_num
  have s2 : Binary64.rnd (2643612981266481 / 4503599627370496 * 204)
      = 2106629094446727 / 17592186044416 := by
    rw [Binary64.rnd_eq_of_pos _ (1 / 70368744177664) 6 8426516377786908 (by norm_num)
      (by norm_num [zpow_neg]) (by norm_num) (by norm_num) (by norm_num) (by norm_num)]
    norm_num
  have s3 : Binary64.rnd (8214565720323785 / 72057594037927936 * 204)
      = 818247757297877 / 35184372088832 := by
    rw [Binary64.rnd_eq_of_pos _ (1 / 281474976710656) 4 6545982058383016 (by norm_num)
      (by norm_num [zpow_neg]) (by norm_num) (by norm_num) (by norm_num) (by norm_num)]
    norm_num
  have s4 : Binary64.rnd (4292211919860793 / 70368744177664 + 2106629094446727 / 17592186044416)
      = 3179682074411925 / 17592186044416 := by
    rw [Binary64.rnd_eq_of_pos_tie _ (1 / 35184372088832) 7 6359364148823850 (by norm_num)
      (by norm_num [zpow_neg]) (by norm_num) (by norm_num) (by norm_num)
      (by rw [abs_of_nonneg (by norm_num)]; norm_num)]
    norm_num
  have s5 : Binary64.rnd (3179682074411925 / 17592186044416 + 818247757297877 / 35184372088832)
      = 7177611906121727 / 35184372088832 := by
    rw [Binary64.rnd_eq_of_pos _ (1 / 35184372088832) 7 7177611906121727 (by norm_num)
      (by norm_num [zpow_neg]) (by norm_num) (by norm_num) (by norm_num) (by norm_num)]
    norm_num
  have s6 : Binary64.rnd (7177611906121727 / 35184372088832 / 255)
      = 7205759403792793 / 9007199254740992 := by
    rw [Binary64.rnd_eq_of_pos _ (1 / 9007199254740992) (-1) 7205759403792793 (by norm_num)
      (by norm_num [zpow_neg]) (by norm_num [zpow_neg]) (by norm_num) (by norm_num)
      (by norm_num)]
    norm_num
  have s7 : Binary64.rnd (1 - 7205759403792793 / 9007199254740992)
      = 1801439850948199 / 9007199254740992 := by
    rw [Binary64.rnd_eq_of_pos _ (1 / 36028797018963968) (-3) 7205759403792796 (by norm_num)
      (by norm_num [zpow_neg]) (by norm_num [zpow_neg]) (by norm_num [zpow_neg])
      (by norm_num) (by norm_num)]
    norm_num
  unfold darkness Binary64.fsub Binary64.fadd Binary64.fmul
  rw [lit_0_299_eq, lit_0_587_eq, lit_0_114_eq]
  simp only [Nat.cast_ofNat]
  rw [s1, s2, s3, s4, s5, s6, s7]

/-- The binary64 `darkness` of the colour (107, 247, 237), step by step. -/
theorem darkness_boundary (a : Nat) :
    darkness ⟨107, 247, 237, a⟩ = 900719925474099 / 4503599627370496 := by
  have s1 : Binary64.rnd (5386305154335113 / 18014398509481984 * 107)
      = 9005228929904017 / 281474976710656 := by
    rw [Binary64.rnd_eq_of_pos _ (1 / 281474976710656) 4 9005228929904017 (by norm_num)
      (by norm_num [zpow_neg]) (by norm_num) (by norm_num) (by norm_num) (by norm_num)]
    norm_num
  have s2 : Binary64.rnd (2643612981266481 / 4503599627370496 * 247)
      = 5101346924787663 / 35184372088832 := by
    rw [Binary64.rnd_eq_of_pos _ (1 / 35184372088832) 7 5101346924787663 (by norm_num)
      (by norm_num [zpow_neg]) (by norm_num) (by norm_num) (by norm_num) (by norm_num)]
    norm_num
  have s3 : Binary64.rnd (8214565720323785 / 72057594037927936 * 237)
      = 950611365096063 / 35184372088832 := by
    rw [Binary64.rnd_eq_of_pos _ (1 / 281474976710656) 4 7604890920768504 (by norm_num)
      (by norm_num [zpow_neg]) (by norm_num) (by norm_num) (by norm_num) (by norm_num)]
    norm_num
  have s4 : Binary64.rnd (9005228929904017 / 281474976710656 + 5101346924787663 / 35184372088832)
      = 6227000541025665 / 35184372088832 := by
    rw [Binary64.rnd_eq_of_pos _ (1 / 35184372088832) 7 6227000541025665 (by norm_num)
      (by norm_num [zpow_neg]) (by norm_num) (by norm_num) (by norm_num) (by norm_num)]
    norm_num
  have s5 : Binary64.rnd (6227000541025665 / 35184372088832 + 950611365096063 / 35184372088832)
      = 204 := by
    rw [Binary64.rnd_eq_of_pos _ (1 / 35184372088832) 7 7177611906121728 (by norm_num)
      (by norm_num [zpow_neg]) (by norm_num) (by norm_num) (by norm_num) (by norm_num)]
    norm_num
  have s6 : Binary64.rnd (204 / 255) = 3602879701896397 / 4503599627370496 := by
    rw [Binary64.rnd_eq_of_pos _ (1 / 9007199254740992) (-1) 7205759403792794 (by norm_num)
      (by norm_num [zpow_neg]) (by norm_num [zpow_neg]) (by norm_num) (by norm_num)
      (by norm_num)]
    norm_num
  have s7 : Binary64.rnd (1 - 3602879701896397 / 4503599627370496)
      = 900719925474099 / 4503599627370496 := by
    rw [Binary64.rnd_eq_of_pos _ (1 / 36028797018963968) (-3) 7205759403792792 (by norm_num)
      (by norm_num [zpow_neg]) (by norm_num [zpow_neg]) (by norm_num [zpow_neg])
      (by norm_num) (by norm_num)]
    norm_num
  unfold darkness Binary64.fsub Binary64.fadd Binary64.fmul
  rw [lit_0_299_eq, lit_0_587_eq, lit_0_114_eq]
  simp only [Nat.cast_ofNat]
  rw [s1, s2, s3, s4, s5, s6, s7]

theorem isQColorLight_black (a : Nat) : isQColorLight ⟨0, 0, 0, a⟩ = false :=
  isQColorLight_of_lt ⟨0, 0, 0, a⟩ (by norm_num) (by norm_num) (by norm_num) (by norm_num)

theorem isQColorLight_white (a : Nat) : isQColorLight ⟨255, 255, 255, a⟩ = true :=
  isQColorLight_of_gt ⟨255, 255, 255, a⟩ (by norm_num) (by norm_num) (by norm_num) (by norm_num)

/-- C1, as stated, fails: the colour (107, 247, 237) has `299 r + 587 g + 114 b = 204000`,
an exact darkness of 0.2, not below it, and `isQColorLight` returns true: the binary64
darkness comes out one unit in the last place under the binary64 value of `0.2`. -/
theorem isQColorLight_true_on_boundary :
    isQColorLight ⟨107, 247, 237, 255⟩ = true
    ∧ ¬ (299 * 107 + 587 * 247 + 114 * 237 > 204000) := by
  refine ⟨?_, by norm_num⟩
  unfold isQColorLight
  rw [decide_eq_true_eq, darkness_boundary, lit_0_2_eq]
  norm_num

/-- C1, amended. For components in 0 .. 255, `isQColorLight` returns true whenever
`299 r + 587 g + 114 b > 204000` (exact darkness below 0.2) and false whenever
`299 r + 587 g + 114 b < 204000` (exact darkness above 0.2); where the sum is exactly 204000
the rounding of the binary64 operations decides: the grey (204, 204, 204) is not light, the
colour (107, 247, 237) is. The alpha component has no influence; white is light and black is
not. -/
theorem isQColorLight_iff_off_boundary (color : QColor) (hr : color.red ≤ 255)
    (hg : color.green ≤ 255) (hb : color.blue ≤ 255) :
    (204000 < 299 * color.red + 587 * color.green + 114 * color.blue →
      isQColorLight color = true)
    ∧ (299 * color.red + 587 * color.green + 114 * color.blue < 204000 →
      isQColorLight color = false)
    ∧ (∀ alpha, isQColorLight { color with alpha := alpha } = isQColorLight color)
    ∧ (∀ alpha, isQColorLight ⟨255, 255, 255, alpha⟩ = true)
    ∧ (∀ alpha, isQColorLight ⟨0, 0, 0, alpha⟩ = false)
    ∧ (∀ alpha, isQColorLight ⟨204, 204, 204, alpha⟩ = false)
    ∧ (∀ alpha, isQColorLight ⟨107, 247, 237, alpha⟩ = true) := by
  refine ⟨isQColorLight_of_gt color hr hg hb, isQColorLight_of_lt color hr hg hb, fun _ => rfl,
    isQColorLight_white, isQColorLight_black, ?_, ?_⟩
  · intro alpha
    unfold isQColorLight
    rw [decide_eq_false_iff_not, darkness_grey, lit_0_2_eq]
    norm_num
  · intro alpha
    unfold isQColorLight
    rw [decide_eq_true_eq, darkness_boundary, lit_0_2_eq]
    norm_num

theorem isQColorLight_iff_off_boundary_witness :
    (250 : Nat) ≤ 255 ∧ (200 : Nat) ≤ 255 ∧ (180 : Nat) ≤ 255
    ∧ 204000 < 299 * 250 + 587 * 200 + 114 * 180
    ∧ isQColorLight ⟨250, 200, 180, 255⟩ = true :=
  ⟨by decide, by decide, by decide, by decide,
    (isQColorLight_iff_off_boundary ⟨250, 200, 180, 255⟩ (by decide) (by decide) (by decide)).1
      (by decide)⟩

/-! ## Flag words -/

theorem testBit_word_high (f i : Nat) (hf : f < 2 ^ 32) (hi : 32 ≤ i) : f.testBit i = false :=
  Nat.testBit_lt_two_pow (lt_of_lt_of_le hf (Nat.pow_le_pow_right (by norm_num) hi))

theorem testBit_complement32 (x i : Nat) :
    (complement32 x).testBit i = (decide (i < 32) != x.testBit i) := by
  unfold complement32
  rw [show (0xFFFFFFFF : Nat) = 2 ^ 32 - 1 from rfl, Nat.testBit_xor,
    Nat.testBit_two_pow_sub_one]

theorem complement32_lt (x : Nat) (hx : x < 2 ^ 32) : complement32 x < 2 ^ 32 := by
  unfold complement32
  exact Nat.xor_lt_two_pow (by norm_num) hx

/-- A masked write, bit by bit: the bits of the mask come from the value, the others stay. -/
theorem testBit_maskedWrite (old value mask i : Nat) (ho : old < 2 ^ 32) (hm : mask < 2 ^ 32) :
    ((old &&& complement32 mask) ||| (value &&& mask)).testBit i
      = if mask.testBit i then value.testBit i else old.testBit i := by
  rw [Nat.testBit_or, Nat.testBit_and, Nat.testBit_and, testBit_complement32]
  by_cases hi : i < 32
  · cases old.testBit i <;> cases value.testBit i <;> cases mask.testBit i <;> simp [hi]
  · have h1 := testBit_word_high old i ho (by omega)
    have h2 := testBit_word_high mask i hm (by omega)
    simp [h1, h2]

theorem maskedWrite_lt (old value mask : Nat) (hm : mask < 2 ^ 32) :
    (old &&& complement32 mask) ||| (value &&& mask) < 2 ^ 32 :=
  Nat.or_lt_two_pow (Nat.and_lt_two_pow _ (complement32_lt mask hm)) (Nat.and_lt_two_pow _ hm)

theorem testBit_or_two_pow (f k i : Nat) :
    (f ||| 2 ^ k).testBit i = if i = k then true else f.testBit i := by
  by_cases hik : i = k
  · subst hik
    simp [Nat.testBit_two_pow_self]
  · simp [Nat.testBit_two_pow_of_ne (Ne.symm hik), hik]

theorem testBit_and_complement32_two_pow (f k i : Nat) (hf : f < 2 ^ 32) (hk : k < 32) :
    (f &&& complement32 (2 ^ k)).testBit i = if i = k then false else f.testBit i := by
  rw [Nat.testBit_and, testBit_complement32]
  by_cases hik : i = k
  · subst hik
    simp [Nat.testBit_two_pow_self, hk]
  · by_cases hi : i < 32
    · simp [Nat.testBit_two_pow_of_ne (Ne.symm hik), hik, hi]
    · simp [testBit_word_high f i hf (by omega), hik]

/-- The word a theme setter computes from the current word: bit `k` set for a light theme,
cleared otherwise. -/
theorem testBit_themeWord (old k i : Nat) (light : Bool) (ho : old < 2 ^ 32) (hk : k < 32) :
    (if light = true then old ||| 2 ^ k else old &&& complement32 (2 ^ k)).testBit i
      = if i = k then light else old.testBit i := by
  cases light
  · simpa using testBit_and_complement32_two_pow old k i ho hk
  · simpa using testBit_or_two_pow old k i

/-- Writing that word through the mask `2 ^ k` changes bit `k` only. -/
theorem testBit_maskedTheme (old k i : Nat) (light : Bool) (ho : old < 2 ^ 32) (hk : k < 32) :
    ((old &&& complement32 (2 ^ k))
        ||| ((if light = true then old ||| 2 ^ k else old &&& complement32 (2 ^ k)) &&& 2 ^ k)).testBit i
      = if i = k then light else old.testBit i := by
  have hm : 2 ^ k < 2 ^ 32 := Nat.pow_lt_pow_right (by norm_num) hk
  rw [testBit_maskedWrite _ _ _ _ ho hm, testBit_themeWord _ _ _ _ ho hk]
  by_cases hik : i = k
  · subst hik
    simp [Nat.testBit_two_pow_self]
  · simp [Nat.testBit_two_pow_of_ne (Ne.symm hik), hik]

theorem addFlags_word (f m : Nat) (hf : f < 2 ^ 32) (hm : m < 2 ^ 32) :
    (f &&& complement32 m) ||| (m &&& m) = f ||| m := by
  apply Nat.eq_of_testBit_eq
  intro i
  rw [testBit_maskedWrite _ _ _ _ hf hm, Nat.testBit_or]
  cases f.testBit i <;> cases m.testBit i <;> simp

theorem clearFlags_word (f m : Nat) : (f &&& complement32 m) ||| (0 &&& m) = f &&& complement32 m := by
  simp

theorem maskedTheme_eq (old k : Nat) (light : Bool) (ho : old < 2 ^ 32) (hk : k < 32) :
    (old &&& complement32 (2 ^ k))
        ||| ((if light = true then old ||| 2 ^ k else old &&& complement32 (2 ^ k)) &&& 2 ^ k)
      = if light = true then old ||| 2 ^ k else old &&& complement32 (2 ^ k) := by
  apply Nat.eq_of_testBit_eq
  intro i
  rw [testBit_maskedTheme old k i light ho hk, testBit_themeWord old k i light ho hk]

theorem themeWord_and_complement (old k : Nat) (light : Bool) (ho : old < 2 ^ 32) (hk : k < 32) :
    (if light = true then old ||| 2 ^ k else old &&& complement32 (2 ^ k)) &&& complement32 (2 ^ k)
      = old &&& complement32 (2 ^ k) := by
  apply Nat.eq_of_testBit_eq
  intro i
  rw [Nat.testBit_and, testBit_themeWord old k i light ho hk,
    testBit_and_complement32_two_pow old k i ho hk, testBit_complement32]
  by_cases hik : i = k
  · subst hik
    simp [Nat.testBit_two_pow_self, hk]
  · by_cases hi : i < 32
    · simp [Nat.testBit_two_pow_of_ne (Ne.symm hik), hik, hi]
    · simp [testBit_word_high old i ho (by omega), hik]

theorem themeWord_and_mask (old k : Nat) (light : Bool) (ho : old < 2 ^ 32) (hk : k < 32) :
    (if light = true then old ||| 2 ^ k else old &&& complement32 (2 ^ k)) &&& 2 ^ k
      = if light = true then 2 ^ k else 0 := by
  apply Nat.eq_of_testBit_eq
  intro i
  rw [Nat.testBit_and, testBit_themeWord old k i light ho hk]
  by_cases hik : i = k
  · subst hik
    cases light <;> simp [Nat.testBit_two_pow_self]
  · cases light <;> simp [Nat.testBit_two_pow_of_ne (Ne.symm hik), hik]

theorem themeWord_and_other (old k j : Nat) (light : Bool) (ho : old < 2 ^ 32) (hk : k < 32)
    (hkj : k ≠ j) :
    (if light = true then old ||| 2 ^ k else old &&& complement32 (2 ^ k)) &&& 2 ^ j
      = old &&& 2 ^ j := by
  apply Nat.eq_of_testBit_eq
  intro i
  rw [Nat.testBit_and, Nat.testBit_and, testBit_themeWord old k i light ho hk]
  by_cases hij : i = j
  · subst hij
    simp [Ne.symm hkj]
  · simp [Nat.testBit_two_pow_of_ne (Ne.symm hij)]

theorem themeWord_lt (old k : Nat) (light : Bool) (ho : old < 2 ^ 32) (hk : k < 32) :
    (if light = true then old ||| 2 ^ k else old &&& complement32 (2 ^ k)) < 2 ^ 32 := by
  cases light
  · simpa using lt_of_le_of_lt Nat.and_le_left ho
  · simpa using Nat.or_lt_two_pow ho (Nat.pow_lt_pow_right (by norm_num) hk)

/-- Setting bit `a` and then clearing bit `b` of a 32-bit word, bit by bit. -/
theorem testBit_setClear (f a b i : Nat) (hf : f < 2 ^ 32) (ha : a < 32) (hb : b < 32) :
    ((f ||| 2 ^ a) &&& complement32 (2 ^ b)).testBit i
      = if i = b then false else if i = a then true else f.testBit i := by
  have h1 : f ||| 2 ^ a < 2 ^ 32 := Nat.or_lt_two_pow hf (Nat.pow_lt_pow_right (by norm_num) ha)
  rw [testBit_and_complement32_two_pow _ b i h1 hb, testBit_or_two_pow]

theorem setClear_facts (f a b : Nat) (hf : f < 2 ^ 32) (ha : a < 32) (hb : b < 32) (hab : a ≠ b) :
    ((f ||| 2 ^ a) &&& complement32 (2 ^ b)) &&& 2 ^ a = 2 ^ a
    ∧ ((f ||| 2 ^ a) &&& complement32 (2 ^ b)) &&& 2 ^ b = 0
    ∧ ((f ||| 2 ^ a) &&& complement32 (2 ^ b)) &&& complement32 (2 ^ a ||| 2 ^ b)
        = f &&& complement32 (2 ^ a ||| 2 ^ b)
    ∧ (f ||| 2 ^ a) &&& complement32 (2 ^ b) < 2 ^ 32 := by
  refine ⟨?_, ?_, ?_, ?_⟩
  · apply Nat.eq_of_testBit_eq
    intro i
    rw [Nat.testBit_and, testBit_setClear f a b i hf ha hb]
    by_cases hia : i = a
    · subst hia
      simp [Nat.testBit_two_pow_self, hab]
    · simp [Nat.testBit_two_pow_of_ne (Ne.symm hia)]
  · apply Nat.eq_of_testBit_eq
    intro i
    rw [Nat.testBit_and, testBit_setClear f a b i hf ha hb]
    by_cases hib : i = b
    · subst hib
      simp
    · simp [Nat.testBit_two_pow_of_ne (Ne.symm hib)]
  · apply Nat.eq_of_testBit_eq
    intro i
    have h := testBit_setClear f a b i hf ha hb
    rw [Nat.testBit_and, h, Nat.testBit_and, testBit_complement32, Nat.testBit_or]
    by_cases hia : i = a
    · subst hia
      simp [Nat.testBit_two_pow_self, ha]
    · by_cases hib : i = b
      · subst hib
        simp [Nat.testBit_two_pow_self, hb]
      · simp [hia, hib]
  · exact lt_of_le_of_lt Nat.and_le_left
      (Nat.or_lt_two_pow hf (Nat.pow_lt_pow_right (by norm_num) ha))

/-! ## The setters, field by field -/

theorem MobileUIPrivate.setTheme_statusbar_lt30 (theme : Theme) (w : World) (h : w.sdkVersion < 30) :
    setTheme_statusbar theme w
      = Android.setSystemUiVisibility
          (if decide (theme = Theme.Light) = true then w.systemUiVisibility ||| 2 ^ 13
            else w.systemUiVisibility &&& complement32 (2 ^ 13)) w := by
  unfold setTheme_statusbar
  rw [if_pos h]
  simp [SYSTEM_UI_FLAG_LIGHT_STATUS_BAR]

theorem MobileUIPrivate.setTheme_navbar_lt30 (theme : Theme) (w : World) (h : w.sdkVersion < 30) :
    setTheme_navbar theme w
      = Android.setSystemUiVisibility
          (if decide (theme = Theme.Light) = true then w.systemUiVisibility ||| 2 ^ 4
            else w.systemUiVisibility &&& complement32 (2 ^ 4)) w := by
  unfold setTheme_navbar
  rw [if_pos h]
  simp [SYSTEM_UI_FLAG_LIGHT_NAVIGATION_BAR]

/-- At API level 30 and above the closure of `setTheme_statusbar` is one masked write of the
appearance word followed by the registration step. -/
theorem MobileUIPrivate.setTheme_statusbar_ge30 (theme : Theme) (w : World) (h : 30 ≤ w.sdkVersion) :
    setTheme_statusbar theme w
      = { Android.setSystemBarsAppearance
            (if decide (theme = Theme.Light) = true then w.systemBarsAppearance ||| 2 ^ 3
              else w.systemBarsAppearance &&& complement32 (2 ^ 3)) (2 ^ 3) w with
          orientationChanged :=
            if w.areRefreshSlotsConnected = false ∧ w.primaryScreen = true
            then w.orientationChanged ++ [Slot.refreshLambda] else w.orientationChanged
          areRefreshSlotsConnected := true } := by
  unfold setTheme_statusbar
  rw [if_neg (by omega), if_pos h]
  simp only [Android.setSystemBarsAppearance, APPEARANCE_LIGHT_STATUS_BARS]
  cases hc : w.areRefreshSlotsConnected <;> cases hp : w.primaryScreen <;> cases theme <;>
    simp [hc, hp]

theorem MobileUIPrivate.setTheme_navbar_ge30 (theme : Theme) (w : World) (h : 30 ≤ w.sdkVersion) :
    setTheme_navbar theme w
      = { Android.setSystemBarsAppearance
            (if decide (theme = Theme.Light) = true then w.systemBarsAppearance ||| 2 ^ 4
              else w.systemBarsAppearance &&& complement32 (2 ^ 4)) (2 ^ 4) w with
          orientationChanged :=
            if w.areRefreshSlotsConnected = false ∧ w.primaryScreen = true
            then w.orientationChanged ++ [Slot.refreshLambda] else w.orientationChanged
          areRefreshSlotsConnected := true } := by
  unfold setTheme_navbar
  rw [if_neg (by omega), if_pos h]
  simp only [Android.setSystemBarsAppearance, APPEARANCE_LIGHT_NAVIGATION_BARS]
  cases hc : w.areRefreshSlotsConnected <;> cases hp : w.primaryScreen <;> cases theme <;>
    simp [hc, hp]

/-- What `setTheme_statusbar` leaves alone. -/
theorem MobileUIPrivate.setTheme_statusbar_frame (theme : Theme) (w : World) :
    (setTheme_statusbar theme w).windowFlags = w.windowFlags
    ∧ (setTheme_statusbar theme w).statusBarColor = w.statusBarColor
    ∧ (setTheme_statusbar theme w).navigationBarColor = w.navigationBarColor
    ∧ (setTheme_statusbar theme w).statusbarTheme = w.statusbarTheme
    ∧ (setTheme_statusbar theme w).navbarTheme = w.navbarTheme
    ∧ (setTheme_statusbar theme w).sdkVersion = w.sdkVersion
    ∧ (setTheme_statusbar theme w).primaryScreen = w.primaryScreen := by
  by_cases h : w.sdkVersion < 30
  · rw [setTheme_statusbar_lt30 theme w h]
    simp [Android.setSystemUiVisibility]
  · rw [setTheme_statusbar_ge30 theme w (by omega)]
    simp [Android.setSystemBarsAppearance]

theorem MobileUIPrivate.setTheme_navbar_frame (theme : Theme) (w : World) :
    (setTheme_navbar theme w).windowFlags = w.windowFlags
    ∧ (setTheme_navbar theme w).statusBarColor = w.statusBarColor
    ∧ (setTheme_navbar theme w).navigationBarColor = w.navigationBarColor
    ∧ (setTheme_navbar theme w).statusbarTheme = w.statusbarTheme
    ∧ (setTheme_navbar theme w).navbarTheme = w.navbarTheme
    ∧ (setTheme_navbar theme w).sdkVersion = w.sdkVersion
    ∧ (setTheme_navbar theme w).primaryScreen = w.primaryScreen := by
  by_cases h : w.sdkVersion < 30
  · rw [setTheme_navbar_lt30 theme w h]
    simp [Android.setSystemUiVisibility]
  · rw [setTheme_navbar_ge30 theme w (by omega)]
    simp [Android.setSystemBarsAppearance]

theorem MobileUIPrivate.setTheme_statusbar_appearance (theme : Theme) (v : World) (h : 30 ≤ v.sdkVersion)
    (ha : v.systemBarsAppearance < 2 ^ 32) :
    (setTheme_statusbar theme v).systemBarsAppearance
      = if decide (theme = Theme.Light) = true then v.systemBarsAppearance ||| 2 ^ 3
        else v.systemBarsAppearance &&& complement32 (2 ^ 3) := by
  rw [setTheme_statusbar_ge30 theme v h]
  exact maskedTheme_eq v.systemBarsAppearance 3 _ ha (by norm_num)

theorem MobileUIPrivate.setTheme_navbar_appearance (theme : Theme) (v : World) (h : 30 ≤ v.sdkVersion)
    (ha : v.systemBarsAppearance < 2 ^ 32) :
    (setTheme_navbar theme v).systemBarsAppearance
      = if decide (theme = Theme.Light) = true then v.systemBarsAppearance ||| 2 ^ 4
        else v.systemBarsAppearance &&& complement32 (2 ^ 4) := by
  rw [setTheme_navbar_ge30 theme v h]
  exact maskedTheme_eq v.systemBarsAppearance 4 _ ha (by norm_num)

theorem MobileUIPrivate.setTheme_statusbar_visibility (theme : Theme) (v : World) (h : v.sdkVersion < 30) :
    (setTheme_statusbar theme v).systemUiVisibility
      = if decide (theme = Theme.Light) = true then v.systemUiVisibility ||| 2 ^ 13
        else v.systemUiVisibility &&& complement32 (2 ^ 13) := by
  rw [setTheme_statusbar_lt30 theme v h]
  rfl

theorem MobileUIPrivate.setTheme_navbar_visibility (theme : Theme) (v : World) (h : v.sdkVersion < 30) :
    (setTheme_navbar theme v).systemUiVisibility
      = if decide (theme = Theme.Light) = true then v.systemUiVisibility ||| 2 ^ 4
        else v.systemUiVisibility &&& complement32 (2 ^ 4) := by
  rw [setTheme_navbar_lt30 theme v h]
  rfl

theorem MobileUIPrivate.setTheme_statusbar_jni (theme : Theme) (v : World) :
    ∃ call, (setTheme_statusbar theme v).jni = v.jni ++ [call] := by
  by_cases h : v.sdkVersion < 30
  · rw [setTheme_statusbar_lt30 theme v h]
    exact ⟨_, rfl⟩
  · rw [setTheme_statusbar_ge30 theme v (by omega)]
    exact ⟨_, rfl⟩

theorem MobileUIPrivate.setTheme_navbar_jni (theme : Theme) (v : World) :
    ∃ call, (setTheme_navbar theme v).jni = v.jni ++ [call] := by
  by_cases h : v.sdkVersion < 30
  · rw [setTheme_navbar_lt30 theme v h]
    exact ⟨_, rfl⟩
  · rw [setTheme_navbar_ge30 theme v (by omega)]
    exact ⟨_, rfl⟩

/-- The registration step of `setTheme_statusbar`. -/
theorem MobileUIPrivate.setTheme_statusbar_listener (theme : Theme) (v : World) :
    (setTheme_statusbar theme v).orientationChanged
        = (if 30 ≤ v.sdkVersion ∧ v.areRefreshSlotsConnected = false ∧ v.primaryScreen = true
            then v.orientationChanged ++ [Slot.refreshLambda] else v.orientationChanged)
    ∧ (setTheme_statusbar theme v).areRefreshSlotsConnected
        = (if 30 ≤ v.sdkVersion then true else v.areRefreshSlotsConnected) := by
  by_cases h : v.sdkVersion < 30
  · rw [setTheme_statusbar_lt30 theme v h]
    have h' : ¬ 30 ≤ v.sdkVersion := by omega
    simp [Android.setSystemUiVisibility, h']
  · have h' : 30 ≤ v.sdkVersion := by omega
    rw [setTheme_statusbar_ge30 theme v h']
    simp [h']

/-- The registration step of `setTheme_navbar`. -/
theorem MobileUIPrivate.setTheme_navbar_listener (theme : Theme) (v : World) :
    (setTheme_navbar theme v).orientationChanged
        = (if 30 ≤ v.sdkVersion ∧ v.areRefreshSlotsConnected = false ∧ v.primaryScreen = true
            then v.orientationChanged ++ [Slot.refreshLambda] else v.orientationChanged)
    ∧ (setTheme_navbar theme v).areRefreshSlotsConnected
        = (if 30 ≤ v.sdkVersion then true else v.areRefreshSlotsConnected) := by
  by_cases h : v.sdkVersion < 30
  · rw [setTheme_navbar_lt30 theme v h]
    have h' : ¬ 30 ≤ v.sdkVersion := by omega
    simp [Android.setSystemUiVisibility, h']
  · have h' : 30 ≤ v.sdkVersion := by omega
    rw [setTheme_navbar_ge30 theme v h']
    simp [h']

theorem MobileUIPrivate.setColor_statusbar_eq (color : QColor) (w : World) :
    setColor_statusbar color w
      = setTheme_statusbar (Theme.ofBool (!isQColorLight color))
          { Android.setStatusBarColor color.rgba
              (Android.clearFlags FLAG_TRANSLUCENT_STATUS
                (Android.addFlags FLAG_DRAWS_SYSTEM_BAR_BACKGROUNDS w)) with
            statusbarTheme := Theme.ofBool (!isQColorLight color) } :=
  rfl

theorem MobileUIPrivate.setColor_navbar_eq (color : QColor) (w : World) :
    setColor_navbar color w
      = setTheme_navbar (Theme.ofBool (!isQColorLight color))
          { Android.setNavigationBarColor color.rgba
              (Android.clearFlags FLAG_TRANSLUCENT_NAVIGATION
                (Android.addFlags FLAG_DRAWS_SYSTEM_BAR_BACKGROUNDS w)) with
            navbarTheme := Theme.ofBool (!isQColorLight color) } :=
  rfl

theorem Theme.decide_ofBool_not (b : Bool) :
    decide (Theme.ofBool (!b) = Theme.Light) = b := by
  cases b <;> rfl

theorem Theme.ofBool_not (b : Bool) :
    Theme.ofBool (!b) = if b = true then Theme.Light else Theme.Dark := by
  cases b <;> rfl

/-- The colour part of `setColor_statusbar`: the world `v` the theme is then applied to. -/
theorem MobileUIPrivate.setColor_statusbar_split (color : QColor) (w : World) (hf : w.windowFlags < 2 ^ 32) :
    ∃ v, setColor_statusbar color w = setTheme_statusbar (Theme.ofBool (!isQColorLight color)) v
      ∧ v.windowFlags = (w.windowFlags ||| 2 ^ 31) &&& complement32 (2 ^ 26)
      ∧ v.statusBarColor = color.rgba
      ∧ v.navigationBarColor = w.navigationBarColor
      ∧ v.statusbarTheme = Theme.ofBool (!isQColorLight color)
      ∧ v.navbarTheme = w.navbarTheme
      ∧ v.systemBarsAppearance = w.systemBarsAppearance
      ∧ v.systemUiVisibility = w.systemUiVisibility
      ∧ v.sdkVersion = w.sdkVersion
      ∧ v.jni = w.jni ++ [JniCall.addFlags (2 ^ 31), JniCall.clearFlags (2 ^ 26),
          JniCall.setStatusBarColor color.rgba] := by
  refine ⟨_, setColor_statusbar_eq color w, ?_, rfl, rfl, rfl, rfl, rfl, rfl, rfl, ?_⟩
  · show ((w.windowFlags &&& complement32 (2 ^ 31) ||| (2 ^ 31 &&& 2 ^ 31))
        &&& complement32 (2 ^ 26) ||| (0 &&& 2 ^ 26)) = _
    rw [addFlags_word w.windowFlags (2 ^ 31) hf (by norm_num), clearFlags_word]
  · simp [Android.setStatusBarColor, Android.clearFlags, Android.addFlags, Android.setFlags,
      FLAG_TRANSLUCENT_STATUS, FLAG_DRAWS_SYSTEM_BAR_BACKGROUNDS]

/-- The colour part of `setColor_navbar`: the world `v` the theme is then applied to. -/
theorem MobileUIPrivate.setColor_navbar_split (color : QColor) (w : World) (hf : w.windowFlags < 2 ^ 32) :
    ∃ v, setColor_navbar color w = setTheme_navbar (Theme.ofBool (!isQColorLight color)) v
      ∧ v.windowFlags = (w.windowFlags ||| 2 ^ 31) &&& complement32 (2 ^ 27)
      ∧ v.statusBarColor = w.statusBarColor
      ∧ v.navigationBarColor = color.rgba
      ∧ v.statusbarTheme = w.statusbarTheme
      ∧ v.navbarTheme = Theme.ofBool (!isQColorLight color)
      ∧ v.systemBarsAppearance = w.systemBarsAppearance
      ∧ v.systemUiVisibility = w.systemUiVisibility
      ∧ v.sdkVersion = w.sdkVersion
      ∧ v.jni = w.jni ++ [JniCall.addFlags (2 ^ 31), JniCall.clearFlags (2 ^ 27),
          JniCall.setNavigationBarColor color.rgba] := by
  refine ⟨_, setColor_navbar_eq color w, ?_, rfl, rfl, rfl, rfl, rfl, rfl, rfl, ?_⟩
  · show ((w.windowFlags &&& complement32 (2 ^ 31) ||| (2 ^ 31 &&& 2 ^ 31))
        &&& complement32 (2 ^ 27) ||| (0 &&& 2 ^ 27)) = _
    rw [addFlags_word w.windowFlags (2 ^ 31) hf (by norm_num), clearFlags_word]
  · simp [Android.setNavigationBarColor, Android.clearFlags, Android.addFlags, Android.setFlags,
      FLAG_TRANSLUCENT_NAVIGATION, FLAG_DRAWS_SYSTEM_BAR_BACKGROUNDS]

theorem MobileUIPrivate.setColor_statusbar_themes (color : QColor) (w : World) :
    (setColor_statusbar color w).statusbarTheme = Theme.ofBool (!isQColorLight color)
    ∧ (setColor_statusbar color w).navbarTheme = w.navbarTheme := by
  rw [setColor_statusbar_eq]
  obtain ⟨_, _, _, f4, f5, _, _⟩ := setTheme_statusbar_frame (Theme.ofBool (!isQColorLight color))
    { Android.setStatusBarColor color.rgba
        (Android.clearFlags FLAG_TRANSLUCENT_STATUS
          (Android.addFlags FLAG_DRAWS_SYSTEM_BAR_BACKGROUNDS w)) with
      statusbarTheme := Theme.ofBool (!isQColorLight color) }
  exact ⟨f4, f5⟩

theorem MobileUIPrivate.setColor_navbar_themes (color : QColor) (w : World) :
    (setColor_navbar color w).navbarTheme = Theme.ofBool (!isQColorLight color)
    ∧ (setColor_navbar color w).statusbarTheme = w.statusbarTheme := by
  rw [setColor_navbar_eq]
  obtain ⟨_, _, _, f4, f5, _, _⟩ := setTheme_navbar_frame (Theme.ofBool (!isQColorLight color))
    { Android.setNavigationBarColor color.rgba
        (Android.clearFlags FLAG_TRANSLUCENT_NAVIGATION
          (Android.addFlags FLAG_DRAWS_SYSTEM_BAR_BACKGROUNDS w)) with
      navbarTheme := Theme.ofBool (!isQColorLight color) }
  exact ⟨f5, f4⟩

theorem runCalls_cons (call : Call) (rest : List Call) (w : World) :
    runCalls (call :: rest) w = runCalls rest (call.run w) :=
  rfl

/-! ## C2: the theme setters and the platform words -/

/-- C2. A theme setter changes one bit of one platform word. For 32-bit words and every theme:
at API level 30 and above `setTheme_statusbar` and `setTheme_navbar` write the appearance mask
of the insets controller through `setSystemBarsAppearance` with the mask argument `0x08`,
respectively `0x10`; below API level 30 they write the system-UI visibility of the decor view,
the bit being `0x2000`, respectively `0x10`. In each case the bits outside the targeted bit
are the old ones, the targeted bit is set exactly for the theme `Light`, and the other of the
two words is untouched. -/
theorem setTheme_changes_only_target_bit (theme : Theme) (w : World)
    (hv : w.systemUiVisibility < 2 ^ 32) (ha : w.systemBarsAppearance < 2 ^ 32) :
    (30 ≤ w.sdkVersion →
      ((setTheme_statusbar theme w).systemBarsAppearance &&& complement32 0x08
          = w.systemBarsAppearance &&& complement32 0x08
        ∧ (setTheme_statusbar theme w).systemBarsAppearance &&& 0x08
          = (if theme = Theme.Light then 0x08 else 0)
        ∧ (∃ appearance, (setTheme_statusbar theme w).jni
          = w.jni ++ [JniCall.setSystemBarsAppearance appearance 0x08])
        ∧ (setTheme_statusbar theme w).systemUiVisibility = w.systemUiVisibility)
      ∧ ((setTheme_navbar theme w).systemBarsAppearance &&& complement32 0x10
          = w.systemBarsAppearance &&& complement32 0x10
        ∧ (setTheme_navbar theme w).systemBarsAppearance &&& 0x10
          = (if theme = Theme.Light then 0x10 else 0)
        ∧ (∃ appearance, (setTheme_navbar theme w).jni
          = w.jni ++ [JniCall.setSystemBarsAppearance appearance 0x10])
        ∧ (setTheme_navbar theme w).systemUiVisibility = w.systemUiVisibility))
    ∧ (w.sdkVersion < 30 →
      ((setTheme_statusbar theme w).systemUiVisibility &&& complement32 0x2000
          = w.systemUiVisibility &&& complement32 0x2000
        ∧ (setTheme_statusbar theme w).systemUiVisibility &&& 0x2000
          = (if theme = Theme.Light then 0x2000 else 0)
        ∧ (setTheme_statusbar theme w).jni
          = w.jni ++ [JniCall.setSystemUiVisibility (setTheme_statusbar theme w).systemUiVisibility]
        ∧ (setTheme_statusbar theme w).systemBarsAppearance = w.systemBarsAppearance)
      ∧ ((setTheme_navbar theme w).systemUiVisibility &&& complement32 0x10
          = w.systemUiVisibility &&& complement32 0x10
        ∧ (setTheme_navbar theme w).systemUiVisibility &&& 0x10
          = (if theme = Theme.Light then 0x10 else 0)
        ∧ (setTheme_navbar theme w).jni
          = w.jni ++ [JniCall.setSystemUiVisibility (setTheme_navbar theme w).systemUiVisibility]
        ∧ (setTheme_navbar theme w).systemBarsAppearance = w.systemBarsAppearance)) := by
  have e3 : (0x08 : Nat) = 2 ^ 3 := rfl
  have e4 : (0x10 : Nat) = 2 ^ 4 := rfl
  have e13 : (0x2000 : Nat) = 2 ^ 13 := rfl
  have a3 := themeWord_and_complement w.systemBarsAppearance 3 (decide (theme = Theme.Light)) ha
    (by norm_num)
  have b3 := themeWord_and_mask w.systemBarsAppearance 3 (decide (theme = Theme.Light)) ha
    (by norm_num)
  have c3 := maskedTheme_eq w.systemBarsAppearance 3 (decide (theme = Theme.Light)) ha
    (by norm_num)
  have a4 := themeWord_and_complement w.systemBarsAppearance 4 (decide (theme = Theme.Light)) ha
    (by norm_num)
  have b4 := themeWord_and_mask w.systemBarsAppearance 4 (decide (theme = Theme.Light)) ha
    (by norm_num)
  have c4 := maskedTheme_eq w.systemBarsAppearance 4 (decide (theme = Theme.Light)) ha
    (by norm_num)
  have a13 := themeWord_and_complement w.systemUiVisibility 13 (decide (theme = Theme.Light)) hv
    (by norm_num)
  have b13 := themeWord_and_mask w.systemUiVisibility 13 (decide (theme = Theme.Light)) hv
    (by norm_num)
  have a4v := themeWord_and_complement w.systemUiVisibility 4 (decide (theme = Theme.Light)) hv
    (by norm_num)
  have b4v := themeWord_and_mask w.systemUiVisibility 4 (decide (theme = Theme.Light)) hv
    (by norm_num)
  rw [e3, e4, e13]
  refine ⟨fun h => ⟨⟨?_, ?_, ?_, ?_⟩, ?_, ?_, ?_, ?_⟩, fun h => ⟨⟨?_, ?_, ?_, ?_⟩, ?_, ?_, ?_, ?_⟩⟩
  · rw [setTheme_statusbar_ge30 theme w h]
    simp only [Android.setSystemBarsAppearance]
    rw [c3, a3]
  · rw [setTheme_statusbar_ge30 theme w h]
    simp only [Android.setSystemBarsAppearance]
    rw [c3, b3]
    simp
  · rw [setTheme_statusbar_ge30 theme w h]
    exact ⟨_, rfl⟩
  · rw [setTheme_statusbar_ge30 theme w h]
    rfl
  · rw [setTheme_navbar_ge30 theme w h]
    simp only [Android.setSystemBarsAppearance]
    rw [c4, a4]
  · rw [setTheme_navbar_ge30 theme w h]
    simp only [Android.setSystemBarsAppearance]
    rw [c4, b4]
    simp
  · rw [setTheme_navbar_ge30 theme w h]
    exact ⟨_, rfl⟩
  · rw [setTheme_navbar_ge30 theme w h]
    rfl
  · rw [setTheme_statusbar_lt30 theme w h]
    simp only [Android.setSystemUiVisibility]
    rw [a13]
  · rw [setTheme_statusbar_lt30 theme w h]
    simp only [Android.setSystemUiVisibility]
    rw [b13]
    simp
  · rw [setTheme_statusbar_lt30 theme w h]
    rfl
  · rw [setTheme_statusbar_lt30 theme w h]
    rfl
  · rw [setTheme_navbar_lt30 theme w h]
    simp only [Android.setSystemUiVisibility]
    rw [a4v]
  · rw [setTheme_navbar_lt30 theme w h]
    simp only [Android.setSystemUiVisibility]
    rw [b4v]
    simp
  · rw [setTheme_navbar_lt30 theme w h]
    rfl
  · rw [setTheme_navbar_lt30 theme w h]
    rfl

/-- The status-bar setter at API level 33, theme `Light`: bit `0x08` ends up set. -/
theorem setTheme_changes_only_target_bit_witness :
    World.sample.systemUiVisibility < 2 ^ 32 ∧ World.sample.systemBarsAppearance < 2 ^ 32
    ∧ 30 ≤ World.sample.sdkVersion
    ∧ (setTheme_statusbar Theme.Light World.sample).systemBarsAppearance &&& 0x08
        = (if Theme.Light = Theme.Light then 0x08 else 0) :=
  ⟨by decide, by decide, by decide,
    ((setTheme_changes_only_target_bit Theme.Light World.sample (by decide) (by decide)).1
      (by decide)).1.2.1⟩

/-! ## C3: `lockScreenOrientation` -/

/-- C3. Orientation codes. When the six named enumerators are pairwise distinct,
`lockScreenOrientation` requests 1 for `Portrait`, 9 for `Portrait_upsidedown`, 7 for
`Portrait_sensor`, 0 for `Landscape_left`, 8 for `Landscape_right`, 6 for `Landscape_sensor`
and -1 for every other integer; with a valid activity exactly one call of
`setRequestedOrientation` is made, carrying that code, and with an invalid activity nothing
happens. -/
theorem lockScreenOrientation_requests_documented_code (E : ScreenOrientation) (hE : E.Distinct)
    (orientation : Int) (w : World) :
    orientationValue E E.Portrait = 1
    ∧ orientationValue E E.Portrait_upsidedown = 9
    ∧ orientationValue E E.Portrait_sensor = 7
    ∧ orientationValue E E.Landscape_left = 0
    ∧ orientationValue E E.Landscape_right = 8
    ∧ orientationValue E E.Landscape_sensor = 6
    ∧ (orientation ≠ E.Portrait → orientation ≠ E.Portrait_upsidedown →
        orientation ≠ E.Portrait_sensor → orientation ≠ E.Landscape_left →
        orientation ≠ E.Landscape_right → orientation ≠ E.Landscape_sensor →
        orientationValue E orientation = -1)
    ∧ (w.activityValid = true →
        lockScreenOrientation E orientation w
          = { w with jni := w.jni ++ [JniCall.setRequestedOrientation (orientationValue E orientation)] })
    ∧ (w.activityValid = false → lockScreenOrientation E orientation w = w) := by
  unfold ScreenOrientation.Distinct at hE
  simp only [List.nodup_cons, List.mem_cons, List.mem_singleton, not_or, List.not_mem_nil,
    not_false_eq_true, List.nodup_nil, and_true] at hE
  obtain ⟨⟨h12, h13, h14, h15, h16⟩, ⟨h23, h24, h25, h26⟩, ⟨h34, h35, h36⟩, ⟨h45, h46⟩, h56⟩ := hE
  refine ⟨?_, ?_, ?_, ?_, ?_, ?_, ?_, ?_, ?_⟩
  · simp [orientationValue]
  · simp [orientationValue, Ne.symm h12]
  · simp [orientationValue, Ne.symm h13, Ne.symm h23]
  · simp [orientationValue, Ne.symm h14, Ne.symm h24, Ne.symm h34]
  · simp [orientationValue, Ne.symm h15, Ne.symm h25, Ne.symm h35, Ne.symm h45]
  · simp [orientationValue, Ne.symm h16, Ne.symm h26, Ne.symm h36, Ne.symm h46, Ne.symm h56]
  · intro a b c d e f
    simp [orientationValue, a, b, c, d, e, f]
  · intro h
    simp [lockScreenOrientation, h, Android.setRequestedOrientation]
  · intro h
    simp [lockScreenOrientation, h]

/-- The enumerators as powers of two, a choice of six distinct values. -/
theorem lockScreenOrientation_requests_documented_code_witness :
    (ScreenOrientation.mk 1 2 4 8 16 32).Distinct
    ∧ orientationValue (ScreenOrientation.mk 1 2 4 8 16 32) 16 = 8
    ∧ orientationValue (ScreenOrientation.mk 1 2 4 8 16 32) 3 = -1 := by
  have h := lockScreenOrientation_requests_documented_code (ScreenOrientation.mk 1 2 4 8 16 32)
    (by decide) 3 World.sample
  exact ⟨by decide, h.2.2.2.2.1, h.2.2.2.2.2.2.1 (by decide) (by decide) (by decide) (by decide)
    (by decide) (by decide)⟩

/-! ## C4: `getDeviceTheme_sys` -/

theorem and_night_mask (u : Nat) : u &&& 0x30 = (u % 64) &&& 0x30 := by
  have h : (0x30 : Nat) = (2 ^ 6 - 1) &&& 0x30 := by decide
  conv_lhs => rw [h, ← Nat.and_assoc, Nat.and_pow_two_sub_one_eq_mod]

theorem night_bits_small : ∀ y : Fin 64,
    (y.val &&& 0x30 = 0x20 ↔ y.val / 16 % 4 = 2)
    ∧ (y.val &&& 0x30 = 0x00 ∨ y.val &&& 0x30 = 0x10 ∨ y.val &&& 0x30 = 0x20 ∨ y.val &&& 0x30 = 0x30) := by
  decide

/-- C4. The device theme. `getDeviceTheme_sys` returns `Dark` exactly when the night-mode bits
`uiMode & 0x30` equal `0x20`, that is when bits 4 and 5 of `uiMode` read 2, and `Light` for
every other value, the night-mode bits `0x00`, `0x10` and `0x30` included; the bits outside
the mask do not matter: flipping any of them leaves the result as it is. -/
theorem getDeviceTheme_sys_dark_iff_night_yes (w : World) :
    (getDeviceTheme_sys w = Theme.Dark ↔ w.uiMode &&& 0x30 = 0x20)
    ∧ (getDeviceTheme_sys w = Theme.Light ↔ w.uiMode &&& 0x30 ≠ 0x20)
    ∧ (w.uiMode &&& 0x30 = 0x20 ↔ w.uiMode / 16 % 4 = 2)
    ∧ (w.uiMode &&& 0x30 = 0x00 ∨ w.uiMode &&& 0x30 = 0x10 ∨ w.uiMode &&& 0x30 = 0x30 →
        getDeviceTheme_sys w = Theme.Light)
    ∧ (∀ other : Nat, other &&& 0x30 = 0 →
        getDeviceTheme_sys { w with uiMode := w.uiMode ^^^ other } = getDeviceTheme_sys w) := by
  have hdef : ∀ v : World, getDeviceTheme_sys v
      = if v.uiMode &&& 0x30 = 0x20 then Theme.Dark else Theme.Light := fun v => rfl
  refine ⟨?_, ?_, ?_, ?_, ?_⟩
  · rw [hdef]
    split_ifs with h <;> simp [h]
  · rw [hdef]
    split_ifs with h <;> simp [h]
  · rw [and_night_mask]
    have h := (night_bits_small ⟨w.uiMode % 64, Nat.mod_lt _ (by norm_num)⟩).1
    simp only at h
    rw [h]
    omega
  · intro h
    rw [hdef]
    rcases h with h | h | h <;> simp [h]
  · intro other h
    rw [hdef, hdef]
    simp only
    rw [Nat.and_xor_distrib_right, h, Nat.xor_zero]

/-- The configuration `uiMode = 0x11`, night mode "no": the device theme is `Light`. -/
theorem getDeviceTheme_sys_dark_iff_night_yes_witness :
    World.sample.uiMode &&& 0x30 = 0x10 ∧ getDeviceTheme_sys World.sample = Theme.Light :=
  ⟨by decide, (getDeviceTheme_sys_dark_iff_night_yes World.sample).2.2.2.1 (Or.inr (Or.inl (by decide)))⟩

/-! ## C5: the safe-area getters -/

/-- The rounded quotient of a non-negative 32-bit inset by a ratio of at least 1 converts to
an `int` between 0 and the inset, and between the floor and the ceiling of the exact
quotient. -/
theorem MobileUIPrivate.scaleInset_bounds (inset : Int) (w : World) (h0 : 0 ≤ inset) (h1 : inset ≤ 2147483647)
    (hr : 1 ≤ w.devicePixelRatio) :
    ∃ r, scaleInset inset w = some r ∧ 0 ≤ r ∧ r ≤ inset
      ∧ ⌊(inset : ℚ) / w.devicePixelRatio⌋ ≤ r ∧ r ≤ ⌈(inset : ℚ) / w.devicePixelRatio⌉ := by
  have hd : w.devicePixelRatio ≠ 0 := by
    intro h
    rw [h] at hr
    norm_num at hr
  have hdpos : (0 : ℚ) < w.devicePixelRatio := by linarith
  have hi0 : (0 : ℚ) ≤ inset := by exact_mod_cast h0
  have hi1 : (inset : ℚ) ≤ 2147483647 := by exact_mod_cast h1
  unfold scaleInset Binary64.fdiv
  rw [if_neg hd]
  simp only [Option.some_bind]
  generalize hq : (inset : ℚ) / w.devicePixelRatio = q
  have hq0 : 0 ≤ q := by rw [← hq]; positivity
  have hq1 : q ≤ inset := by
    rw [← hq]
    exact div_le_self hi0 hr
  have key : (0 : ℚ) ≤ Binary64.rnd q ∧ Binary64.rnd q ≤ inset
      ∧ ((⌊q⌋ : ℤ) : ℚ) ≤ Binary64.rnd q ∧ Binary64.rnd q ≤ ((⌈q⌉ : ℤ) : ℚ) := by
    rcases eq_or_lt_of_le hq0 with hz | hpos
    · rw [← hz]
      simp [Binary64.rnd, hi0]
    · have hlt : q < 2 ^ 53 := by
        have : (2147483647 : ℚ) < 2 ^ 53 := by norm_num
        linarith
      have hceil : ((⌈q⌉ : ℤ) : ℚ) < 2 ^ 53 := by
        have h3 : ⌈q⌉ ≤ inset := Int.ceil_le.2 hq1
        have h4 : ((⌈q⌉ : ℤ) : ℚ) ≤ inset := by exact_mod_cast h3
        have : (2147483647 : ℚ) < 2 ^ 53 := by norm_num
        linarith
      refine ⟨?_, ?_, ?_, ?_⟩
      · have := Binary64.intCast_le_rnd q 0 hpos (by simpa using hq0) hlt
        simpa using this
      · exact Binary64.rnd_le_intCast q inset hpos hq1 (by
          have : (2147483647 : ℚ) < 2 ^ 53 := by norm_num
          linarith)
      · exact Binary64.intCast_le_rnd q ⌊q⌋ hpos (Int.floor_le q) hlt
      · exact Binary64.rnd_le_intCast q ⌈q⌉ hpos (Int.le_ceil q) hceil
  obtain ⟨k0, k1, k2, k3⟩ := key
  have t0 : 0 ≤ ⌊Binary64.rnd q⌋ := Int.floor_nonneg.2 k0
  have t1 : ⌊Binary64.rnd q⌋ ≤ inset := by
    have : ((⌊Binary64.rnd q⌋ : ℤ) : ℚ) ≤ inset := le_trans (Int.floor_le _) k1
    exact_mod_cast this
  have t2 : ⌊q⌋ ≤ ⌊Binary64.rnd q⌋ := Int.le_floor.2 k2
  have t3 : ⌊Binary64.rnd q⌋ ≤ ⌈q⌉ := by
    have : ((⌊Binary64.rnd q⌋ : ℤ) : ℚ) ≤ ((⌈q⌉ : ℤ) : ℚ) := le_trans (Int.floor_le _) k3
    exact_mod_cast this
  refine ⟨⌊Binary64.rnd q⌋, ?_, t0, t1, t2, t3⟩
  unfold Binary64.toInt
  simp only [if_pos k0]
  rw [if_pos ⟨by omega, by omega⟩]

/-- C5. The safe-area getters. Each of `getSafeAreaTop`, `getSafeAreaLeft`, `getSafeAreaRight`
and `getSafeAreaBottom` returns 0 when there is no cutout to ask (API level below 28, or a
null cutout object). Otherwise each returns its own inset put through one and the same
computation, the binary64 quotient by the device pixel ratio truncated toward zero, so equal
insets give equal results. For a pixel inset (non-negative, a 32-bit `int`) and a ratio of at
least 1 the result is defined, lies between 0 and the raw inset, and is the exact quotient
rounded down or up to an integer. -/
theorem getSafeArea_zero_or_scaled_inset (w : World) :
    (w.sdkVersion < 28 ∨ w.displayCutout = none →
      getSafeAreaTop w = some 0 ∧ getSafeAreaLeft w = some 0
        ∧ getSafeAreaRight w = some 0 ∧ getSafeAreaBottom w = some 0)
    ∧ (∀ cutout, 28 ≤ w.sdkVersion → w.displayCutout = some cutout →
      getSafeAreaTop w = scaleInset cutout.safeInsetTop w
        ∧ getSafeAreaLeft w = scaleInset cutout.safeInsetLeft w
        ∧ getSafeAreaRight w = scaleInset cutout.safeInsetRight w
        ∧ getSafeAreaBottom w = scaleInset cutout.safeInsetBottom w)
    ∧ (∀ inset : Int, 0 < w.devicePixelRatio →
      scaleInset inset w
        = Binary64.toInt (Binary64.rnd ((inset : ℚ) / w.devicePixelRatio)))
    ∧ (∀ inset : Int, 0 ≤ inset → inset ≤ 2147483647 → 1 ≤ w.devicePixelRatio →
      ∃ r, scaleInset inset w = some r ∧ 0 ≤ r ∧ r ≤ inset
        ∧ ⌊(inset : ℚ) / w.devicePixelRatio⌋ ≤ r ∧ r ≤ ⌈(inset : ℚ) / w.devicePixelRatio⌉) := by
  refine ⟨?_, ?_, ?_, ?_⟩
  · intro h
    have hc : getDisplayCutout w = none := by
      unfold getDisplayCutout
      rcases h with h | h
      · rw [if_neg (by omega)]
      · rw [h]
        simp
    simp [getSafeAreaTop, getSafeAreaLeft, getSafeAreaRight, getSafeAreaBottom, hc]
  · intro cutout h28 hcut
    have hc : getDisplayCutout w = some cutout := by
      unfold getDisplayCutout
      rw [if_pos h28, hcut]
    simp [getSafeAreaTop, getSafeAreaLeft, getSafeAreaRight, getSafeAreaBottom, hc]
  · intro inset hpos
    simp [scaleInset, Binary64.fdiv, hpos.ne']
  · intro inset h0 h1 hr
    exact scaleInset_bounds inset w h0 h1 hr

/-- An inset of 84 pixels at the ratio 2.625: the getter returns 32. -/
theorem getSafeArea_zero_or_scaled_inset_witness :
    (0 : Int) ≤ 84 ∧ (84 : Int) ≤ 2147483647 ∧ 1 ≤ World.sample.devicePixelRatio
    ∧ scaleInset 84 World.sample = some 32 := by
  obtain ⟨r, h1, h2, h3, h4, h5⟩ :=
    (getSafeArea_zero_or_scaled_inset World.sample).2.2.2 84 (by decide) (by decide)
      (by norm_num [World.sample])
  have e : ((84 : Int) : ℚ) / World.sample.devicePixelRatio = ((32 : Int) : ℚ) := by
    norm_num [World.sample]
  rw [e, Int.floor_intCast] at h4
  rw [e, Int.ceil_intCast] at h5
  have hr : r = 32 := by omega
  rw [hr] at h1
  exact ⟨by decide, by decide, by norm_num [World.sample], h1⟩

/-! ## C6: the cached themes -/

/-- The cached status-bar theme after a sequence of calls. -/
theorem runCalls_statusbarTheme (calls : List Call) (w : World) :
    (runCalls calls w).statusbarTheme = (lastStatusbarColorTheme calls).getD w.statusbarTheme := by
  induction calls generalizing w with
  | nil => rfl
  | cons call rest ih =>
    rw [runCalls_cons, ih, lastStatusbarColorTheme]
    cases hl : lastStatusbarColorTheme rest with
    | some theme => rfl
    | none =>
      simp only [Option.getD_none]
      cases call with
      | setColor_statusbar color => exact (setColor_statusbar_themes color w).1
      | setTheme_statusbar theme => exact (setTheme_statusbar_frame theme w).2.2.2.1
      | setColor_navbar color => exact (setColor_navbar_themes color w).2
      | setTheme_navbar theme => exact (setTheme_navbar_frame theme w).2.2.2.1

/-- The cached navigation-bar theme after a sequence of calls. -/
theorem runCalls_navbarTheme (calls : List Call) (w : World) :
    (runCalls calls w).navbarTheme = (lastNavbarColorTheme calls).getD w.navbarTheme := by
  induction calls generalizing w with
  | nil => rfl
  | cons call rest ih =>
    rw [runCalls_cons, ih, lastNavbarColorTheme]
    cases hl : lastNavbarColorTheme rest with
    | some theme => rfl
    | none =>
      simp only [Option.getD_none]
      cases call with
      | setColor_statusbar color => exact (setColor_statusbar_themes color w).2
      | setTheme_statusbar theme => exact (setTheme_statusbar_frame theme w).2.2.2.2.1
      | setColor_navbar color => exact (setColor_navbar_themes color w).1
      | setTheme_navbar theme => exact (setTheme_navbar_frame theme w).2.2.2.2.1

/-- C6, as stated, fails: after `setColor_statusbar(black)` the cache holds `Dark`, and the
later call `setTheme_statusbar(Light)` requests `Light` without storing it. -/
theorem cached_theme_not_last_requested :
    (runCalls [Call.setColor_statusbar ⟨0, 0, 0, 255⟩, Call.setTheme_statusbar Theme.Light]
        World.sample).statusbarTheme ≠ Theme.Light := by
  rw [runCalls_statusbarTheme]
  simp [lastStatusbarColorTheme, Call.statusbarColorTheme, isQColorLight_black, Theme.ofBool]

/-- C6, amended. After every sequence of calls of the four setters the cached
`statusbarTheme` is the theme derived from the colour of the most recent `setColor_statusbar`
call, or its value before the sequence when there is none, and `navbarTheme` likewise for
`setColor_navbar`, whatever the platform state; the theme setters write neither cache; a
status-bar call never changes `navbarTheme` and a navigation-bar call never changes
`statusbarTheme`. -/
theorem cached_themes_follow_last_setColor (calls : List Call) (w : World) :
    (runCalls calls w).statusbarTheme = (lastStatusbarColorTheme calls).getD w.statusbarTheme
    ∧ (runCalls calls w).navbarTheme = (lastNavbarColorTheme calls).getD w.navbarTheme
    ∧ (∀ color, (setColor_statusbar color w).statusbarTheme
        = if isQColorLight color = true then Theme.Light else Theme.Dark)
    ∧ (∀ color, (setColor_navbar color w).navbarTheme
        = if isQColorLight color = true then Theme.Light else Theme.Dark)
    ∧ (∀ theme, (setTheme_statusbar theme w).statusbarTheme = w.statusbarTheme)
    ∧ (∀ theme, (setTheme_navbar theme w).navbarTheme = w.navbarTheme)
    ∧ (∀ call : Call, call.isStatusbar = true → (call.run w).navbarTheme = w.navbarTheme)
    ∧ (∀ call : Call, call.isStatusbar = false → (call.run w).statusbarTheme = w.statusbarTheme) := by
  refine ⟨runCalls_statusbarTheme calls w, runCalls_navbarTheme calls w, ?_, ?_, ?_, ?_, ?_, ?_⟩
  · intro color
    rw [(setColor_statusbar_themes color w).1, Theme.ofBool_not]
  · intro color
    rw [(setColor_navbar_themes color w).1, Theme.ofBool_not]
  · intro theme
    exact (setTheme_statusbar_frame theme w).2.2.2.1
  · intro theme
    exact (setTheme_navbar_frame theme w).2.2.2.2.1
  · intro call h
    cases call with
    | setColor_statusbar color => exact (setColor_statusbar_themes color w).2
    | setTheme_statusbar theme => exact (setTheme_statusbar_frame theme w).2.2.2.2.1
    | setColor_navbar color => simp [Call.isStatusbar] at h
    | setTheme_navbar theme => simp [Call.isStatusbar] at h
  · intro call h
    cases call with
    | setColor_statusbar color => simp [Call.isStatusbar] at h
    | setTheme_statusbar theme => simp [Call.isStatusbar] at h
    | setColor_navbar color => exact (setColor_navbar_themes color w).2
    | setTheme_navbar theme => exact (setTheme_navbar_frame theme w).2.2.2.1

theorem cached_themes_follow_last_setColor_witness :
    (Call.setTheme_statusbar Theme.Dark).isStatusbar = true
    ∧ ((Call.setTheme_statusbar Theme.Dark).run World.sample).navbarTheme
        = World.sample.navbarTheme :=
  ⟨rfl, (cached_themes_follow_last_setColor [] World.sample).2.2.2.2.2.2.1
    (Call.setTheme_statusbar Theme.Dark) rfl⟩

/-! ## C7: the colour setters -/

/-- C7. Setting a bar colour. For every colour and 32-bit platform words, `setColor_statusbar`
sets the window flag `0x80000000`, clears the window flag `0x04000000`, keeps every other
window flag bit, sets the status bar colour to the colour's RGBA value, stores the theme
`Light` when `isQColorLight` holds and `Dark` otherwise, and applies it: the
light-status-bar bit (`0x08` of the appearance mask at API level 30 and above, `0x2000` of
the system-UI visibility below) ends up set exactly for light colours; the platform calls are
made in that order. `setColor_navbar` does the same with the window flag `0x08000000`, the
navigation bar colour, `navbarTheme` and the light-navigation-bar bit `0x10`. -/
theorem setColor_applies_colour_then_luminance_theme (color : QColor) (w : World)
    (hf : w.windowFlags < 2 ^ 32) (hv : w.systemUiVisibility < 2 ^ 32)
    (ha : w.systemBarsAppearance < 2 ^ 32) :
    ((setColor_statusbar color w).windowFlags &&& 0x80000000 = 0x80000000
      ∧ (setColor_statusbar color w).windowFlags &&& 0x04000000 = 0
      ∧ (setColor_statusbar color w).windowFlags &&& complement32 (0x80000000 ||| 0x04000000)
          = w.windowFlags &&& complement32 (0x80000000 ||| 0x04000000)
      ∧ (setColor_statusbar color w).statusBarColor = color.rgba
      ∧ (setColor_statusbar color w).statusbarTheme
          = (if isQColorLight color = true then Theme.Light else Theme.Dark)
      ∧ (30 ≤ w.sdkVersion → (setColor_statusbar color w).systemBarsAppearance &&& 0x08
          = if isQColorLight color = true then 0x08 else 0)
      ∧ (w.sdkVersion < 30 → (setColor_statusbar color w).systemUiVisibility &&& 0x2000
          = if isQColorLight color = true then 0x2000 else 0)
      ∧ (∃ themeCall, (setColor_statusbar color w).jni
          = w.jni ++ [JniCall.addFlags 0x80000000, JniCall.clearFlags 0x04000000,
              JniCall.setStatusBarColor color.rgba, themeCall]))
    ∧ ((setColor_navbar color w).windowFlags &&& 0x80000000 = 0x80000000
      ∧ (setColor_navbar color w).windowFlags &&& 0x08000000 = 0
      ∧ (setColor_navbar color w).windowFlags &&& complement32 (0x80000000 ||| 0x08000000)
          = w.windowFlags &&& complement32 (0x80000000 ||| 0x08000000)
      ∧ (setColor_navbar color w).navigationBarColor = color.rgba
      ∧ (setColor_navbar color w).navbarTheme
          = (if isQColorLight color = true then Theme.Light else Theme.Dark)
      ∧ (30 ≤ w.sdkVersion → (setColor_navbar color w).systemBarsAppearance &&& 0x10
          = if isQColorLight color = true then 0x10 else 0)
      ∧ (w.sdkVersion < 30 → (setColor_navbar color w).systemUiVisibility &&& 0x10
          = if isQColorLight color = true then 0x10 else 0)
      ∧ (∃ themeCall, (setColor_navbar color w).jni
          = w.jni ++ [JniCall.addFlags 0x80000000, JniCall.clearFlags 0x08000000,
              JniCall.setNavigationBarColor color.rgba, themeCall])) := by
  have e31 : (0x80000000 : Nat) = 2 ^ 31 := rfl
  have e26 : (0x04000000 : Nat) = 2 ^ 26 := rfl
  have e27 : (0x08000000 : Nat) = 2 ^ 27 := rfl
  have e3 : (0x08 : Nat) = 2 ^ 3 := rfl
  have e4 : (0x10 : Nat) = 2 ^ 4 := rfl
  have e13 : (0x2000 : Nat) = 2 ^ 13 := rfl
  rw [e31, e26, e27, e3, e4, e13]
  obtain ⟨s1, s2, s3, _⟩ := setClear_facts w.windowFlags 31 26 hf (by norm_num) (by norm_num)
    (by norm_num)
  obtain ⟨n1, n2, n3, _⟩ := setClear_facts w.windowFlags 31 27 hf (by norm_num) (by norm_num)
    (by norm_num)
  constructor
  · obtain ⟨v, hv0, v1, v2, _, v4, _, v6, v7, v8, v9⟩ := setColor_statusbar_split color w hf
    obtain ⟨f1, f2, _, f4, _, _, _⟩ :=
      setTheme_statusbar_frame (Theme.ofBool (!isQColorLight color)) v
    obtain ⟨call, hcall⟩ := setTheme_statusbar_jni (Theme.ofBool (!isQColorLight color)) v
    rw [hv0, f1, f2, f4, v1, v2, v4, hcall, v9]
    refine ⟨s1, s2, s3, rfl, Theme.ofBool_not _, ?_, ?_, ⟨call, by simp⟩⟩
    · intro h
      rw [setTheme_statusbar_appearance _ v (by omega) (by omega), Theme.decide_ofBool_not, v6]
      exact themeWord_and_mask w.systemBarsAppearance 3 _ ha (by norm_num)
    · intro h
      rw [setTheme_statusbar_visibility _ v (by omega), Theme.decide_ofBool_not, v7]
      exact themeWord_and_mask w.systemUiVisibility 13 _ hv (by norm_num)
  · obtain ⟨v, hv0, v1, _, v3, _, v5, v6, v7, v8, v9⟩ := setColor_navbar_split color w hf
    obtain ⟨f1, _, f3, _, f5, _, _⟩ :=
      setTheme_navbar_frame (Theme.ofBool (!isQColorLight color)) v
    obtain ⟨call, hcall⟩ := setTheme_navbar_jni (Theme.ofBool (!isQColorLight color)) v
    rw [hv0, f1, f3, f5, v1, v3, v5, hcall, v9]
    refine ⟨n1, n2, n3, rfl, Theme.ofBool_not _, ?_, ?_, ⟨call, by simp⟩⟩
    · intro h
      rw [setTheme_navbar_appearance _ v (by omega) (by omega), Theme.decide_ofBool_not, v6]
      exact themeWord_and_mask w.systemBarsAppearance 4 _ ha (by norm_num)
    · intro h
      rw [setTheme_navbar_visibility _ v (by omega), Theme.decide_ofBool_not, v7]
      exact themeWord_and_mask w.systemUiVisibility 4 _ hv (by norm_num)

/-- A white status bar at API level 33: the flag `0x80000000` is set. -/
theorem setColor_applies_colour_then_luminance_theme_witness :
    World.sample.windowFlags < 2 ^ 32 ∧ World.sample.systemUiVisibility < 2 ^ 32
    ∧ World.sample.systemBarsAppearance < 2 ^ 32
    ∧ (setColor_statusbar ⟨255, 255, 255, 255⟩ World.sample).windowFlags &&& 0x80000000
        = 0x80000000 :=
  ⟨by decide, by decide, by decide,
    (setColor_applies_colour_then_luminance_theme ⟨255, 255, 255, 255⟩ World.sample (by decide)
      (by decide) (by decide)).1.1⟩

/-! ## C8: the orientation-change listener -/

/-- The registration step of any of the four setters, and what it leaves alone. -/
theorem Call.run_listener (call : Call) (w : World) :
    (call.run w).orientationChanged
        = (if 30 ≤ w.sdkVersion ∧ w.areRefreshSlotsConnected = false ∧ w.primaryScreen = true
            then w.orientationChanged ++ [Slot.refreshLambda] else w.orientationChanged)
    ∧ (call.run w).areRefreshSlotsConnected
        = (if 30 ≤ w.sdkVersion then true else w.areRefreshSlotsConnected)
    ∧ (call.run w).sdkVersion = w.sdkVersion := by
  cases call with
  | setColor_statusbar color =>
    refine ⟨?_, ?_, ?_⟩
    · exact (setTheme_statusbar_listener _ _).1
    · exact (setTheme_statusbar_listener _ _).2
    · exact (setTheme_statusbar_frame _ _).2.2.2.2.2.1
  | setTheme_statusbar theme =>
    exact ⟨(setTheme_statusbar_listener theme w).1, (setTheme_statusbar_listener theme w).2,
      (setTheme_statusbar_frame theme w).2.2.2.2.2.1⟩
  | setColor_navbar color =>
    refine ⟨?_, ?_, ?_⟩
    · exact (setTheme_navbar_listener _ _).1
    · exact (setTheme_navbar_listener _ _).2
    · exact (setTheme_navbar_frame _ _).2.2.2.2.2.1
  | setTheme_navbar theme =>
    exact ⟨(setTheme_navbar_listener theme w).1, (setTheme_navbar_listener theme w).2,
      (setTheme_navbar_frame theme w).2.2.2.2.2.1⟩

/-- Once the flag is set no call connects anything, and the flag stays set. -/
theorem runCalls_connected (calls : List Call) (w : World)
    (h : w.areRefreshSlotsConnected = true) :
    (runCalls calls w).orientationChanged = w.orientationChanged
    ∧ (runCalls calls w).areRefreshSlotsConnected = true := by
  induction calls generalizing w with
  | nil => exact ⟨rfl, h⟩
  | cons call rest ih =>
    obtain ⟨a, b, _⟩ := Call.run_listener call w
    have hflag : (call.run w).areRefreshSlotsConnected = true := by
      rw [b]
      split_ifs
      · rfl
      · exact h
    obtain ⟨c, d⟩ := ih (call.run w) hflag
    rw [runCalls_cons]
    refine ⟨?_, d⟩
    rw [c, a, if_neg (by simp [h])]

/-- Below API level 30 no call connects anything or touches the flag. -/
theorem runCalls_lt30 (calls : List Call) (w : World) (h : w.sdkVersion < 30) :
    (runCalls calls w).orientationChanged = w.orientationChanged
    ∧ (runCalls calls w).areRefreshSlotsConnected = w.areRefreshSlotsConnected := by
  induction calls generalizing w with
  | nil => exact ⟨rfl, rfl⟩
  | cons call rest ih =>
    obtain ⟨a, b, c⟩ := Call.run_listener call w
    have h' : ¬ 30 ≤ w.sdkVersion := by omega
    obtain ⟨d, e⟩ := ih (call.run w) (by rw [c]; exact h)
    rw [runCalls_cons, d, e, a, b]
    simp [h']

/-- C8, as stated, fails: at API level 33 without a primary screen the first call of
`setTheme_statusbar` connects nothing and sets the flag all the same, and a later call of
`setTheme_navbar` connects nothing either. -/
theorem listener_not_registered_without_screen :
    (setTheme_statusbar Theme.Light { World.sample with primaryScreen := false }).orientationChanged
        = []
    ∧ (setTheme_statusbar Theme.Light
        { World.sample with primaryScreen := false }).areRefreshSlotsConnected = true
    ∧ (runCalls [Call.setTheme_statusbar Theme.Light, Call.setTheme_navbar Theme.Dark]
        { World.sample with primaryScreen := false }).orientationChanged = [] :=
  ⟨rfl, rfl, rfl⟩

/-- C8, amended. At API level 30 and above, from a state where the flag
`areRefreshSlotsConnected` is false and a primary screen exists, the first call of a sequence
of setter calls connects the orientation-change closure, exactly one closure is connected by
the whole sequence, and the flag is true afterwards. In every state where the flag is true no
call connects anything and the flag stays true. Below API level 30 no call connects anything
and the flag is not modified. -/
theorem listener_registered_once_by_first_call (w : World) :
    (∀ (first : Call) (rest : List Call), 30 ≤ w.sdkVersion →
      w.areRefreshSlotsConnected = false → w.primaryScreen = true →
        (first.run w).orientationChanged = w.orientationChanged ++ [Slot.refreshLambda]
        ∧ (first.run w).areRefreshSlotsConnected = true
        ∧ (runCalls (first :: rest) w).orientationChanged
            = w.orientationChanged ++ [Slot.refreshLambda]
        ∧ (runCalls (first :: rest) w).areRefreshSlotsConnected = true)
    ∧ (∀ calls : List Call, w.areRefreshSlotsConnected = true →
        (runCalls calls w).orientationChanged = w.orientationChanged
        ∧ (runCalls calls w).areRefreshSlotsConnected = true)
    ∧ (∀ calls : List Call, w.sdkVersion < 30 →
        (runCalls calls w).orientationChanged = w.orientationChanged
        ∧ (runCalls calls w).areRefreshSlotsConnected = w.areRefreshSlotsConnected) := by
  refine ⟨?_, fun calls h => runCalls_connected calls w h, fun calls h => runCalls_lt30 calls w h⟩
  intro first rest h30 hflag hscreen
  obtain ⟨a, b, _⟩ := Call.run_listener first w
  rw [if_pos ⟨h30, hflag, hscreen⟩] at a
  rw [if_pos h30] at b
  obtain ⟨c, d⟩ := runCalls_connected rest (first.run w) b
  rw [runCalls_cons]
  exact ⟨a, b, by rw [c, a], d⟩

theorem listener_registered_once_by_first_call_witness :
    30 ≤ World.sample.sdkVersion ∧ World.sample.areRefreshSlotsConnected = false
    ∧ World.sample.primaryScreen = true
    ∧ (runCalls [Call.setTheme_statusbar Theme.Dark, Call.setTheme_navbar Theme.Light,
          Call.setTheme_statusbar Theme.Light] World.sample).orientationChanged
        = World.sample.orientationChanged ++ [Slot.refreshLambda] :=
  ⟨by decide, rfl, rfl,
    ((listener_registered_once_by_first_call World.sample).1 (Call.setTheme_statusbar Theme.Dark)
      [Call.setTheme_navbar Theme.Light, Call.setTheme_statusbar Theme.Light]
      (by decide) rfl rfl).2.2.1⟩

/-! ## C9: `setScreenKeepOn` -/

theorem MobileUIPrivate.setScreenKeepOn_windowFlags (keepOn : Bool) (w : World) (hf : w.windowFlags < 2 ^ 32) :
    (setScreenKeepOn keepOn w).windowFlags
      = if keepOn = true then w.windowFlags ||| 2 ^ 7 else w.windowFlags &&& complement32 (2 ^ 7) := by
  cases keepOn
  · simp [setScreenKeepOn, Android.clearFlags, Android.setFlags, FLAG_KEEP_SCREEN_ON]
  · simpa [setScreenKeepOn, Android.addFlags, Android.setFlags, FLAG_KEEP_SCREEN_ON]
      using addFlags_word w.windowFlags (2 ^ 7) hf (by norm_num)

theorem MobileUIPrivate.setScreenKeepOn_lt (keepOn : Bool) (w : World) (hf : w.windowFlags < 2 ^ 32) :
    (setScreenKeepOn keepOn w).windowFlags < 2 ^ 32 := by
  rw [setScreenKeepOn_windowFlags keepOn w hf]
  exact themeWord_lt w.windowFlags 7 keepOn hf (by norm_num)

theorem MobileUIPrivate.foldl_setScreenKeepOn_lt (calls : List Bool) (w : World) (hf : w.windowFlags < 2 ^ 32) :
    (calls.foldl (fun v b => setScreenKeepOn b v) w).windowFlags < 2 ^ 32 := by
  induction calls generalizing w with
  | nil => exact hf
  | cons b rest ih => exact ih (setScreenKeepOn b w) (setScreenKeepOn_lt b w hf)

/-- C9. The screen-keep-on flag. For every 32-bit window flag word `f`, `setScreenKeepOn(true)`
yields `f | 0x80` and `setScreenKeepOn(false)` yields `f & ~0x80`; the bits other than `0x80`
are never changed; the call is idempotent on the flag word; and after any sequence of calls
the bit `0x80` is set exactly when the argument of the last call is `true`. -/
theorem setScreenKeepOn_only_keep_screen_on_bit (w : World) (hf : w.windowFlags < 2 ^ 32) :
    (setScreenKeepOn true w).windowFlags = w.windowFlags ||| 0x80
    ∧ (setScreenKeepOn false w).windowFlags = w.windowFlags &&& complement32 0x80
    ∧ (∀ b, (setScreenKeepOn b w).windowFlags &&& complement32 0x80
        = w.windowFlags &&& complement32 0x80)
    ∧ (∀ b, (setScreenKeepOn b (setScreenKeepOn b w)).windowFlags
        = (setScreenKeepOn b w).windowFlags)
    ∧ (∀ (earlier : List Bool) (b : Bool),
        (setScreenKeepOn b (earlier.foldl (fun v x => setScreenKeepOn x v) w)).windowFlags &&& 0x80
          = if b = true then 0x80 else 0) := by
  have e7 : (0x80 : Nat) = 2 ^ 7 := rfl
  rw [e7]
  refine ⟨?_, ?_, ?_, ?_, ?_⟩
  · rw [setScreenKeepOn_windowFlags true w hf]
    rfl
  · rw [setScreenKeepOn_windowFlags false w hf]
    rfl
  · intro b
    rw [setScreenKeepOn_windowFlags b w hf]
    exact themeWord_and_complement w.windowFlags 7 b hf (by norm_num)
  · intro b
    have h1 := setScreenKeepOn_lt b w hf
    rw [setScreenKeepOn_windowFlags b _ h1]
    apply Nat.eq_of_testBit_eq
    intro i
    rw [testBit_themeWord _ 7 i b h1 (by norm_num), setScreenKeepOn_windowFlags b w hf,
      testBit_themeWord _ 7 i b hf (by norm_num)]
    split_ifs <;> rfl
  · intro earlier b
    have h1 := foldl_setScreenKeepOn_lt earlier w hf
    rw [setScreenKeepOn_windowFlags b _ h1]
    exact themeWord_and_mask _ 7 b h1 (by norm_num)

theorem setScreenKeepOn_only_keep_screen_on_bit_witness :
    World.sample.windowFlags < 2 ^ 32
    ∧ (setScreenKeepOn true World.sample).windowFlags = World.sample.windowFlags ||| 0x80 :=
  ⟨by decide, (setScreenKeepOn_only_keep_screen_on_bit World.sample (by decide)).1⟩

/-! ## C10: what the orientation-change closure re-applies -/

/-- The connected closure runs `setTheme_statusbar` on the cached status-bar theme. -/
theorem Slot.run_eq (slot : Slot) (v : World) :
    slot.run v = setTheme_statusbar v.statusbarTheme v := by
  cases slot
  rfl

/-- C10. The orientation-change closure re-applies the status-bar theme only. At API level 30
and above, from a state with the flag false, a primary screen and nothing connected, either
theme setter connects the same closure; that closure runs `setTheme_statusbar` on the cached
`statusbarTheme` and nothing for the navigation bar. So after `setTheme_navbar(Light)` alone
and an orientation change in which the platform resets the appearance mask to `reset`, the
light-navigation-bar bit `0x10`, which the setter had set, is the one of `reset`, not
restored, while the light-status-bar bit `0x08` is rewritten from the cached status-bar
theme. -/
theorem orientation_callback_reapplies_statusbar_only (w : World) (reset : Nat)
    (h30 : 30 ≤ w.sdkVersion) (hflag : w.areRefreshSlotsConnected = false)
    (hscreen : w.primaryScreen = true) (hslots : w.orientationChanged = [])
    (ha : w.systemBarsAppearance < 2 ^ 32) (hr : reset < 2 ^ 32) :
    (∀ theme, (setTheme_statusbar theme w).orientationChanged = [Slot.refreshLambda]
      ∧ (setTheme_navbar theme w).orientationChanged = [Slot.refreshLambda])
    ∧ (∀ v : World, Slot.refreshLambda.run v = setTheme_statusbar v.statusbarTheme v
      ∧ emitOrientationChanged { v with orientationChanged := [Slot.refreshLambda] }
          = setTheme_statusbar v.statusbarTheme { v with orientationChanged := [Slot.refreshLambda] }
      ∧ (Slot.refreshLambda.run v).navbarTheme = v.navbarTheme
      ∧ (Slot.refreshLambda.run v).statusbarTheme = v.statusbarTheme)
    ∧ (setTheme_navbar Theme.Light w).systemBarsAppearance &&& 0x10 = 0x10
    ∧ (emitOrientationChanged
        { setTheme_navbar Theme.Light w with systemBarsAppearance := reset }).systemBarsAppearance
          &&& 0x10 = reset &&& 0x10
    ∧ (emitOrientationChanged
        { setTheme_navbar Theme.Light w with systemBarsAppearance := reset }).systemBarsAppearance
          &&& 0x08 = (if w.statusbarTheme = Theme.Light then 0x08 else 0)
    ∧ (emitOrientationChanged
        { setTheme_navbar Theme.Light w with systemBarsAppearance := reset }).navbarTheme
          = w.navbarTheme := by
  have e3 : (0x08 : Nat) = 2 ^ 3 := rfl
  have e4 : (0x10 : Nat) = 2 ^ 4 := rfl
  rw [e3, e4]
  obtain ⟨n1, n2⟩ := setTheme_navbar_listener Theme.Light w
  obtain ⟨_, _, _, n4, n5, n6, _⟩ := setTheme_navbar_frame Theme.Light w
  rw [if_pos ⟨h30, hflag, hscreen⟩, hslots] at n1
  have hemit : emitOrientationChanged
        { setTheme_navbar Theme.Light w with systemBarsAppearance := reset }
      = setTheme_statusbar w.statusbarTheme
          { setTheme_navbar Theme.Light w with systemBarsAppearance := reset } := by
    unfold emitOrientationChanged
    simp only [n1, List.nil_append, List.foldl_cons, List.foldl_nil]
    rw [Slot.run_eq]
    simp only [n4]
  refine ⟨?_, ?_, ?_, ?_, ?_, ?_⟩
  · intro theme
    obtain ⟨s1, _⟩ := setTheme_statusbar_listener theme w
    obtain ⟨t1, _⟩ := setTheme_navbar_listener theme w
    rw [s1, t1, if_pos ⟨h30, hflag, hscreen⟩, hslots]
    exact ⟨rfl, rfl⟩
  · intro v
    refine ⟨rfl, ?_, (setTheme_statusbar_frame _ v).2.2.2.2.1, (setTheme_statusbar_frame _ v).2.2.2.1⟩
    unfold emitOrientationChanged
    simp only [List.foldl_cons, List.foldl_nil]
    rfl
  · rw [setTheme_navbar_appearance Theme.Light w h30 ha]
    exact themeWord_and_mask w.systemBarsAppearance 4 true ha (by norm_num)
  · rw [hemit, setTheme_statusbar_appearance _ _ (by simpa [n6] using h30) hr]
    exact themeWord_and_other reset 3 4 _ hr (by norm_num) (by norm_num)
  · rw [hemit, setTheme_statusbar_appearance _ _ (by simpa [n6] using h30) hr]
    have := themeWord_and_mask reset 3 (decide (w.statusbarTheme = Theme.Light)) hr (by norm_num)
    simpa using this
  · rw [hemit, (setTheme_statusbar_frame _ _).2.2.2.2.1]
    exact n5

/-- Only `setTheme_navbar(Light)` at API level 33, then a rotation that clears the appearance
mask: the navigation-bar bit stays cleared. -/
theorem orientation_callback_reapplies_statusbar_only_witness :
    30 ≤ World.sample.sdkVersion ∧ World.sample.areRefreshSlotsConnected = false
    ∧ World.sample.primaryScreen = true ∧ World.sample.orientationChanged = []
    ∧ World.sample.systemBarsAppearance < 2 ^ 32 ∧ (0 : Nat) < 2 ^ 32
    ∧ (setTheme_navbar Theme.Light World.sample).systemBarsAppearance &&& 0x10 = 0x10
    ∧ (emitOrientationChanged
        { setTheme_navbar Theme.Light World.sample with
          systemBarsAppearance := 0 }).systemBarsAppearance &&& 0x10 = 0 &&& 0x10 :=
  ⟨by decide, rfl, rfl, rfl, by decide, by decide,
    (orientation_callback_reapplies_statusbar_only World.sample 0 (by decide) rfl rfl rfl
      (by decide) (by decide)).2.2.1,
    (orientation_callback_reapplies_statusbar_only World.sample 0 (by decide) rfl rfl rfl
      (by decide) (by decide)).2.2.2.1⟩
